import Mathlib

/-!
# KnowledgeBot dashboard: a shallow embedding of the client code

The dashboard is a React application.  Its components are embedded as pure
functions over explicit state:

* `localStorage` and `window.location.href` form the `Browser` state;
* a component's `useState` cells form a state record, and every event handler
  is a function from the state at the render that created the handler to the
  state after the handler has run to completion;
* the network is a parameter `net`: a function from the request that leaves the
  client to the outcome of that request (a response or an axios error);
* every request goes through `api.request`, which applies the two interceptors
  of `api/api.js`.

Handlers return, next to the new state, the requests they sent and the timers
they scheduled.
-/

namespace KnowledgeBot

/-! ## JavaScript values used by the client -/

/-- Key/value entries in insertion order: the shape of `localStorage`, of a header
object and of query parameters. -/
abbrev Entries := List (String × String)

/-- Property read `obj[key]`: the value of the first entry with that key. -/
def Entries.get : Entries → String → Option String
  | [], _ => none
  | (k, v) :: rest, key => if k = key then some v else Entries.get rest key

/-- Property write `obj[key] = value`: an existing key keeps its place, a new key
goes to the end. -/
def Entries.set : Entries → String → String → Entries
  | [], key, value => [(key, value)]
  | (k, v) :: rest, key, value =>
    if k = key then (k, value) :: rest else (k, v) :: Entries.set rest key value

/-- Property removal `delete obj[key]`. -/
def Entries.remove : Entries → String → Entries
  | [], _ => []
  | (k, v) :: rest, key =>
    if k = key then Entries.remove rest key else (k, v) :: Entries.remove rest key

/-- Truthiness of a value that is a string or `null`: `null` and the empty string
are falsy, every other string is truthy. -/
def truthy : Option String → Bool
  | none => false
  | some s => s ≠ ""

/-- The browser's `localStorage`. -/
structure Storage where
  items : Entries
  deriving DecidableEq, Repr

/-- `localStorage.getItem(key)`: the stored string, or `null`. -/
def Storage.getItem (ls : Storage) (key : String) : Option String :=
  Entries.get ls.items key

/-- `localStorage.setItem(key, value)`. -/
def Storage.setItem (ls : Storage) (key value : String) : Storage :=
  ⟨Entries.set ls.items key value⟩

/-- `localStorage.removeItem(key)`. -/
def Storage.removeItem (ls : Storage) (key : String) : Storage :=
  ⟨Entries.remove ls.items key⟩

/-- The part of the browser the client reads and writes: `localStorage` and
`window.location.href`. -/
structure Browser where
  localStorage : Storage
  location : String
  deriving DecidableEq, Repr

/-! ## api/api.js -/

/-- HTTP methods used by the client. -/
inductive Method
  | GET | POST | DELETE
  deriving DecidableEq, Repr

/-- A `File` picked in a file input. -/
structure File where
  name : String
  content : String
  deriving DecidableEq, Repr

/-- A JavaScript number: an IEEE 754 double, kept as its 64 bits (one bit of sign,
eleven of exponent, fifty-two of fraction). -/
structure JsNumber where
  bits : Nat
  deriving DecidableEq, Repr

/-- A scalar JSON value. -/
inductive JsValue
  | null
  | bool (b : Bool)
  | num (n : JsNumber)
  | str (s : String)
  deriving DecidableEq, Repr

/-- A flat JSON object. -/
abbrev JsObject := List (String × JsValue)

/-- The `data` of a request: nothing, a JSON object literal, or a `FormData`. -/
inductive Body
  | empty
  | json (fields : JsObject)
  | formData (fields : List (String × File))
  deriving DecidableEq, Repr

/-- An axios request config. -/
structure Config where
  method : Method
  baseURL : String
  url : String
  data : Body
  params : Entries
  headers : Entries
  deriving DecidableEq, Repr

/-- A response as axios hands it to the caller. -/
structure Response (α : Type) where
  status : Nat
  data : α
  deriving DecidableEq, Repr

/-- The response carried by a failed request, when the server answered at all. -/
structure ErrorResponse where
  status : Nat
  detail : Option String
  deriving DecidableEq, Repr

/-- An axios error: `response` is absent when the server did not answer. -/
structure AxiosError where
  message : String
  response : Option ErrorResponse
  deriving DecidableEq, Repr

/-- Outcome of a request: the promise resolves with a response or rejects with an
error. -/
abbrev Outcome (α : Type) := Except AxiosError (Response α)

/-- The instance made by `axios.create`: `baseURL: '/api/v1'`. -/
def api.baseURL : String := "/api/v1"

/-- Config built by `api.get(url, { params })`. -/
def api.get (url : String) (params : Entries) : Config :=
  { method := .GET, baseURL := api.baseURL, url := url, data := .empty,
    params := params, headers := [] }

/-- Config built by `api.post(url, data, { headers })`. -/
def api.post (url : String) (data : Body) (headers : Entries) : Config :=
  { method := .POST, baseURL := api.baseURL, url := url, data := data,
    params := [], headers := headers }

/-- Config built by `api.delete(url)`. -/
def api.delete (url : String) : Config :=
  { method := .DELETE, baseURL := api.baseURL, url := url, data := .empty,
    params := [], headers := [] }

/-- Request interceptor, success callback: adds the bearer token when
`localStorage` holds a truthy `access_token`. -/
def api.interceptors.request.onFulfilled (localStorage : Storage) (config : Config) : Config :=
  let token := localStorage.getItem "access_token"
  if truthy token then
    { config with headers := Entries.set config.headers "Authorization" ("Bearer " ++ token.getD "") }
  else
    config

/-- Response interceptor, success callback: `(response) => response`. -/
def api.interceptors.response.onFulfilled {α : Type} (response : Response α) : Response α :=
  response

/-- The test `error.response && error.response.status === 401`. -/
def AxiosError.isUnauthorized (error : AxiosError) : Bool :=
  match error.response with
  | none => false
  | some r => r.status = 401

/-- Response interceptor, error callback: on a 401 it clears the stored session and
sets the location to `/login`; it always rejects with the error it was given. -/
def api.interceptors.response.onRejected {α : Type} (b : Browser) (error : AxiosError) :
    Browser × Outcome α :=
  if error.isUnauthorized then
    ({ localStorage := (b.localStorage.removeItem "access_token").removeItem "user",
       location := "/login" }, .error error)
  else
    (b, .error error)

/-- What one call through the axios instance leaves behind. -/
structure Call (α : Type) where
  browser : Browser
  sent : Config
  result : Outcome α

/-- One request through the instance: request interceptor, network, response
interceptor. -/
def api.request {α : Type} (b : Browser) (config : Config) (net : Config → Outcome α) : Call α :=
  let sent := api.interceptors.request.onFulfilled b.localStorage config
  match net sent with
  | .ok response =>
    { browser := b, sent := sent, result := .ok (api.interceptors.response.onFulfilled response) }
  | .error error =>
    let r : Browser × Outcome α := api.interceptors.response.onRejected b error
    { browser := r.1, sent := sent, result := r.2 }

/-! ## context/AuthContext.jsx -/

/-- The user record the server returns: the dashboard reads `full_name` and `email`.
A user is an object, so as a JavaScript value it is always truthy; the state cell
`user` holds such an object or `null`. -/
structure User where
  email : String
  full_name : String
  deriving DecidableEq, Repr

/-- The `data` of a successful `POST /auth/login`. -/
structure LoginData where
  access_token : String
  user : User
  deriving DecidableEq, Repr

/-- The state cells of `AuthProvider`. -/
structure AuthState where
  user : Option User
  loading : Bool
  deriving DecidableEq, Repr

/-- Initial cells: `useState(null)` and `useState(true)`. -/
def AuthState.initial : AuthState :=
  { user := none, loading := true }

/-- The browser together with the provider state and the requests sent so far. -/
structure AuthWorld where
  browser : Browser
  auth : AuthState
  sent : List Config

/-- The world in which `AuthProvider` mounts. -/
def AuthProvider.mount (b : Browser) : AuthWorld :=
  { browser := b, auth := AuthState.initial, sent := [] }

/-- The mount effect of `AuthProvider`: the start-up token check.  `stringify` is
`JSON.stringify`. -/
def AuthProvider.useEffect (stringify : User → String) (net : Config → Outcome User)
    (w : AuthWorld) : AuthWorld :=
  let token := w.browser.localStorage.getItem "access_token"
  if truthy token then
    let r := api.request w.browser (api.get "/auth/me" []) net
    match r.result with
    | .ok response =>
      -- .then: setUser(response.data); localStorage.setItem('user', ...); .finally
      { browser := { r.browser with
          localStorage := r.browser.localStorage.setItem "user" (stringify response.data) },
        auth := { user := some response.data, loading := false },
        sent := w.sent ++ [r.sent] }
    | .error _ =>
      -- .catch: both keys are removed; .finally
      { browser := { r.browser with
          localStorage := (r.browser.localStorage.removeItem "access_token").removeItem "user" },
        auth := { w.auth with loading := false },
        sent := w.sent ++ [r.sent] }
  else
    { w with auth := { w.auth with loading := false } }

/-- The body of `login`: `POST /auth/login`, then store the session.  The second
component is how the promise settles: `.error e` is `throw e`. -/
def login (stringify : User → String) (net : Config → Outcome LoginData)
    (email password : String) (w : AuthWorld) : AuthWorld × Except AxiosError Unit :=
  let body := Body.json [("email", .str email), ("password", .str password)]
  let r := api.request w.browser (api.post "/auth/login" body []) net
  match r.result with
  | .ok response =>
    let access_token := response.data.access_token
    let user := response.data.user
    let ls := (r.browser.localStorage.setItem "access_token" access_token).setItem "user"
      (stringify user)
    ({ browser := { r.browser with localStorage := ls },
       auth := { w.auth with user := some user },
       sent := w.sent ++ [r.sent] }, .ok ())
  | .error error =>
    ({ w with browser := r.browser, sent := w.sent ++ [r.sent] }, .error error)

/-- The body of `logout`. -/
def logout (w : AuthWorld) : AuthWorld :=
  { w with
    browser := { w.browser with
      localStorage := (w.browser.localStorage.removeItem "access_token").removeItem "user" },
    auth := { w.auth with user := none } }

/-- The request `login` hands to the network. -/
def loginRequest (ls : Storage) (email password : String) : Config :=
  api.interceptors.request.onFulfilled ls
    (api.post "/auth/login" (.json [("email", .str email), ("password", .str password)]) [])

/-- The request the start-up check hands to the network. -/
def meRequest (ls : Storage) : Config :=
  api.interceptors.request.onFulfilled ls (api.get "/auth/me" [])

/-! ## components/ProtectedRoute.jsx and App.jsx -/

/-- The tabs of a workspace. -/
inductive Tab
  | knowledge | chat | analytics | tickets | settings
  deriving DecidableEq, Repr

/-- What a render returns, as far as routing is concerned. -/
inductive Element
  | spinner
  | navigate (path : String) (replace : Bool)
  | loginPage
  | dashboardPage
  | workspaceLayout (outlet : Element)
  | workspaceTab (tab : Tab)
  deriving DecidableEq, Repr

/-- The `ProtectedRoute` component: `!user` redirects to `/login` with `replace`,
otherwise the children are returned. -/
def ProtectedRoute (user : Option User) (children : Element) : Element :=
  if user.isNone then .navigate "/login" true else children

/-- The route of `<Routes>` that matches the location. -/
inductive Route
  | login
  | root
  | workspaceIndex (workspaceId : String)
  | workspaceTab (workspaceId : String) (tab : Tab)
  | notFound
  deriving DecidableEq, Repr

/-- The `App` component: the loading screen while `loading`, otherwise the element
of the matching route. -/
def App (auth : AuthState) (route : Route) : Element :=
  if auth.loading then .spinner
  else
    match route with
    | .login => if auth.user.isSome then .navigate "/" false else .loginPage
    | .root => ProtectedRoute auth.user .dashboardPage
    | .workspaceIndex _ =>
      ProtectedRoute auth.user (.workspaceLayout (.navigate "knowledge" true))
    | .workspaceTab _ tab => ProtectedRoute auth.user (.workspaceLayout (.workspaceTab tab))
    | .notFound => .navigate "/" false

/-- Whether a protected page (the dashboard, the workspace layout or one of its
tabs) occurs in an element. -/
def Element.showsProtected : Element → Bool
  | .spinner => false
  | .navigate _ _ => false
  | .loginPage => false
  | .dashboardPage => true
  | .workspaceLayout _ => true
  | .workspaceTab _ => true

/-- The routes declared inside a `<ProtectedRoute>`. -/
def Route.isProtected : Route → Bool
  | .root => true
  | .workspaceIndex _ => true
  | .workspaceTab _ _ => true
  | _ => false

/-- The children handed to `ProtectedRoute` on a protected route. -/
def Route.children : Route → Element
  | .root => .dashboardPage
  | .workspaceIndex _ => .workspaceLayout (.navigate "knowledge" true)
  | .workspaceTab _ tab => .workspaceLayout (.workspaceTab tab)
  | _ => .spinner

/-! ## Hooks, timers and handler results -/

/-- The `useState` hook: the initial value is used on the first render only; on
a later render the stored cell is returned and the argument is ignored. -/
def useState {α : Type} (initialState : α) (cell : Option α) : α :=
  cell.getD initialState

/-- A callback handed to `setTimeout`, with the route parameter its closure
captured. -/
inductive Callback
  | fetchKnowledgeSources (workspaceId : String)
  deriving DecidableEq, Repr

/-- A call `setTimeout(callback, delay)`. -/
structure Timer where
  callback : Callback
  delay : Nat
  deriving DecidableEq, Repr

/-- What a handler leaves behind: the browser, the component state, the requests
sent, the timers scheduled and the `alert` messages shown. -/
structure Step (σ : Type) where
  browser : Browser
  state : σ
  sent : List Config
  timers : List Timer
  alerts : List String

/-- A handler that returns without any effect. -/
def Step.skip {σ : Type} (b : Browser) (s : σ) : Step σ :=
  { browser := b, state := s, sent := [], timers := [], alerts := [] }

/-- Code points removed by `String.prototype.trim`: the ECMAScript WhiteSpace and
LineTerminator productions. -/
def isWhiteSpace (c : Char) : Bool :=
  let n := c.toNat
  n = 0x9 || n = 0xA || n = 0xB || n = 0xC || n = 0xD || n = 0x20 || n = 0xA0 ||
  n = 0x1680 || (0x2000 ≤ n && n ≤ 0x200A) || n = 0x2028 || n = 0x2029 || n = 0x202F ||
  n = 0x205F || n = 0x3000 || n = 0xFEFF

/-- The method `trim` of a JavaScript string. -/
def trim (s : String) : String :=
  ⟨((s.data.dropWhile isWhiteSpace).reverse.dropWhile isWhiteSpace).reverse⟩

/-- A string that is empty or holds white space only. -/
def isBlank (s : String) : Bool :=
  s.data.all isWhiteSpace

/-! ## pages/workspace/WorkspaceChat.jsx -/

/-- The `data` of a successful `POST /workspaces/:id/query`. -/
structure QueryData where
  answer : String
  sources : Option (List JsObject)
  ticket_id : Option String
  deriving DecidableEq, Repr

/-- A chat message.  Absent properties are `none` (`false` for `error`). -/
structure Message where
  sender : String
  text : String
  sources : Option (List JsObject)
  ticket_id : Option String
  error : Bool
  deriving DecidableEq, Repr

/-- The state cells of `WorkspaceChat`. -/
structure ChatState where
  messages : List Message
  input : String
  loading : Bool
  error : Option String
  sessionId : String
  deriving DecidableEq, Repr

/-- The `useState` calls of one render of `WorkspaceChat`.  `uuidv4` is the value
the call `uuidv4()` returns during this render, `cells` the stored cells (`none`
on the first render). -/
def WorkspaceChat.render (uuidv4 : String) (cells : Option ChatState) : ChatState :=
  { messages := useState [] (cells.map (·.messages)),
    input := useState "" (cells.map (·.input)),
    loading := useState false (cells.map (·.loading)),
    error := useState none (cells.map (·.error)),
    sessionId := useState uuidv4 (cells.map (·.sessionId)) }

/-- The `handleSubmit` of the chat form. -/
def WorkspaceChat.handleSubmit (workspaceId : String) (net : Config → Outcome QueryData)
    (b : Browser) (s : ChatState) : Step ChatState :=
  if !truthy (some (trim s.input)) then Step.skip b s
  else
    let userMessage : Message :=
      { sender := "user", text := s.input, sources := none, ticket_id := none, error := false }
    let s1 : ChatState :=
      { s with messages := s.messages ++ [userMessage], input := "", loading := true,
               error := none }
    let body := Body.json [("question", .str s.input), ("session_id", .str s.sessionId)]
    let r := api.request b (api.post ("/workspaces/" ++ workspaceId ++ "/query") body []) net
    match r.result with
    | .ok response =>
      let aiMessage : Message :=
        { sender := "ai", text := response.data.answer, sources := response.data.sources,
          ticket_id := response.data.ticket_id, error := false }
      { browser := r.browser,
        state := { s1 with messages := s1.messages ++ [aiMessage], loading := false },
        sent := [r.sent], timers := [], alerts := [] }
    | .error _ =>
      let errorMessage : Message :=
        { sender := "ai", text := "Извините, произошла ошибка при обработке вашего запроса.",
          sources := some [], ticket_id := none, error := true }
      { browser := r.browser,
        state := { s1 with
          error := some "Ошибка при отправке запроса. Попробуйте снова.",
          messages := s1.messages ++ [errorMessage], loading := false },
        sent := [r.sent], timers := [], alerts := [] }

/-- The `disabled` attribute of the submit button. -/
def WorkspaceChat.submitDisabled (s : ChatState) : Bool :=
  s.loading || !truthy (some (trim s.input))

/-- What the user can do in the chat: type into the input, or submit the form
(with the network answering through `net`). -/
inductive ChatEvent
  | change (value : String)
  | submit (net : Config → Outcome QueryData)

/-- The handler an event runs. -/
def WorkspaceChat.handle (workspaceId : String) (b : Browser) (s : ChatState) :
    ChatEvent → Step ChatState
  | .change value => Step.skip b { s with input := value }
  | .submit net => WorkspaceChat.handleSubmit workspaceId net b s

/-- A chat instance living through a list of events.  Each event is followed by a
render, in which `uuidv4()` returns the string paired with the event.  The
requests of all events are collected in order. -/
def WorkspaceChat.run (workspaceId : String) :
    List (ChatEvent × String) → Browser → ChatState → Step ChatState
  | [], b, s => Step.skip b s
  | (ev, uuidv4) :: rest, b, s =>
    let r := WorkspaceChat.handle workspaceId b s ev
    let next := WorkspaceChat.run workspaceId rest r.browser
      (WorkspaceChat.render uuidv4 (some r.state))
    { next with sent := r.sent ++ next.sent }

/-! ## pages/workspace/WorkspaceKnowledge.jsx -/

/-- A knowledge source as the list shows it. -/
structure KnowledgeSource where
  id : String
  name : String
  type : String
  status : String
  deriving DecidableEq, Repr

/-- The state cells of `WorkspaceKnowledge`. -/
structure KnowledgeState where
  sources : List KnowledgeSource
  loading : Bool
  error : Option String
  isUploadModalOpen : Bool
  isQAModalOpen : Bool
  isUploading : Bool
  selectedFile : Option File
  qaQuestion : String
  qaAnswer : String
  isCreatingQA : Bool
  deriving DecidableEq, Repr

/-- The initial cells of `WorkspaceKnowledge`. -/
def WorkspaceKnowledge.initial : KnowledgeState :=
  { sources := [], loading := true, error := none, isUploadModalOpen := false,
    isQAModalOpen := false, isUploading := false, selectedFile := none, qaQuestion := "",
    qaAnswer := "", isCreatingQA := false }

/-- The function `fetchKnowledgeSources`: loads the list of sources. -/
def WorkspaceKnowledge.fetchKnowledgeSources (workspaceId : String)
    (net : Config → Outcome (List KnowledgeSource)) (b : Browser) (s : KnowledgeState) :
    Step KnowledgeState :=
  let s1 : KnowledgeState := { s with loading := true, error := none }
  let r := api.request b (api.get ("/workspaces/" ++ workspaceId ++ "/knowledge") []) net
  match r.result with
  | .ok response =>
    { browser := r.browser, state := { s1 with sources := response.data, loading := false },
      sent := [r.sent], timers := [], alerts := [] }
  | .error _ =>
    { browser := r.browser,
      state := { s1 with error := some "Не удалось загрузить источники знаний.",
                         loading := false },
      sent := [r.sent], timers := [], alerts := [] }

/-- The handler `handleFileUpload`.  `now` is the value of `Date.now()`. -/
def WorkspaceKnowledge.handleFileUpload (workspaceId : String) (now : Nat)
    (net : Config → Outcome Unit) (b : Browser) (s : KnowledgeState) : Step KnowledgeState :=
  match s.selectedFile with
  | none => Step.skip b s
  | some selectedFile =>
    let s1 : KnowledgeState := { s with isUploading := true, error := none }
    let formData := Body.formData [("file", selectedFile)]
    let r := api.request b
      (api.post ("/workspaces/" ++ workspaceId ++ "/knowledge/upload") formData
        [("Content-Type", "multipart/form-data")]) net
    match r.result with
    | .ok _ =>
      let pseudoSource : KnowledgeSource :=
        { id := "temp-" ++ toString now, name := selectedFile.name, type := "FILE",
          status := "PROCESSING" }
      { browser := r.browser,
        state := { s1 with sources := pseudoSource :: s.sources, isUploadModalOpen := false,
                           selectedFile := none, isUploading := false },
        sent := [r.sent],
        timers := [{ callback := .fetchKnowledgeSources workspaceId, delay := 5000 }],
        alerts := [] }
    | .error _ =>
      { browser := r.browser,
        state := { s1 with error := some "Ошибка при загрузке файла.", isUploading := false },
        sent := [r.sent], timers := [], alerts := [] }

/-- The handler `handleQASubmit`. -/
def WorkspaceKnowledge.handleQASubmit (workspaceId : String) (net : Config → Outcome Unit)
    (b : Browser) (s : KnowledgeState) : Step KnowledgeState :=
  let s1 : KnowledgeState := { s with isCreatingQA := true, error := none }
  let body := Body.json [("question", .str s.qaQuestion), ("answer", .str s.qaAnswer)]
  let r := api.request b (api.post ("/workspaces/" ++ workspaceId ++ "/knowledge/qa") body [])
    net
  match r.result with
  | .ok _ =>
    { browser := r.browser,
      state := { s1 with isQAModalOpen := false, qaQuestion := "", qaAnswer := "",
                         isCreatingQA := false },
      sent := [r.sent],
      timers := [{ callback := .fetchKnowledgeSources workspaceId, delay := 2000 }],
      alerts := [] }
  | .error _ =>
    { browser := r.browser,
      state := { s1 with error := some "Ошибка при создании Q&A.", isCreatingQA := false },
      sent := [r.sent], timers := [], alerts := [] }

/-- The handler `handleDeleteSource`.  `confirm` is the answer `window.confirm`
returns. -/
def WorkspaceKnowledge.handleDeleteSource (workspaceId : String) (confirm : Bool)
    (net : Config → Outcome Unit) (sourceId : String) (b : Browser) (s : KnowledgeState) :
    Step KnowledgeState :=
  if !confirm then Step.skip b s
  else
    let r := api.request b
      (api.delete ("/workspaces/" ++ workspaceId ++ "/knowledge/" ++ sourceId)) net
    match r.result with
    | .ok _ =>
      { browser := r.browser,
        state := { s with sources := s.sources.filter (fun src => src.id ≠ sourceId) },
        sent := [r.sent], timers := [], alerts := [] }
    | .error _ =>
      { browser := r.browser, state := s, sent := [r.sent], timers := [],
        alerts := ["Не удалось удалить источник."] }

/-- A timer firing: the callback runs with the route parameter its closure holds. -/
def Callback.run (net : Config → Outcome (List KnowledgeSource)) (b : Browser)
    (s : KnowledgeState) : Callback → Step KnowledgeState
  | .fetchKnowledgeSources workspaceId =>
    WorkspaceKnowledge.fetchKnowledgeSources workspaceId net b s

/-! ## pages/workspace/WorkspaceTickets.jsx -/

/-- A ticket as the inbox shows it. -/
structure Ticket where
  id : String
  question : String
  created_at : String
  session_id : String
  deriving DecidableEq, Repr

/-- The state cells of `WorkspaceTickets`. -/
structure TicketsState where
  tickets : List Ticket
  loading : Bool
  error : Option String
  selectedTicket : Option Ticket
  resolveAnswer : String
  addToKb : Bool
  isResolving : Bool
  deriving DecidableEq, Repr

/-- The initial cells of `WorkspaceTickets`. -/
def WorkspaceTickets.initial : TicketsState :=
  { tickets := [], loading := true, error := none, selectedTicket := none,
    resolveAnswer := "", addToKb := true, isResolving := false }

/-- The function `fetchTickets`: loads the open tickets. -/
def WorkspaceTickets.fetchTickets (workspaceId : String)
    (net : Config → Outcome (List Ticket)) (b : Browser) (s : TicketsState) :
    Step TicketsState :=
  let s1 : TicketsState := { s with loading := true, error := none }
  let r := api.request b
    (api.get ("/workspaces/" ++ workspaceId ++ "/tickets") [("status", "OPEN")]) net
  match r.result with
  | .ok response =>
    { browser := r.browser, state := { s1 with tickets := response.data, loading := false },
      sent := [r.sent], timers := [], alerts := [] }
  | .error _ =>
    { browser := r.browser,
      state := { s1 with error := some "Не удалось загрузить тикеты.", loading := false },
      sent := [r.sent], timers := [], alerts := [] }

/-- The function `openResolveModal`. -/
def WorkspaceTickets.openResolveModal (ticket : Ticket) (s : TicketsState) : TicketsState :=
  { s with selectedTicket := some ticket, resolveAnswer := "", addToKb := true }

/-- The function `closeResolveModal`. -/
def WorkspaceTickets.closeResolveModal (s : TicketsState) : TicketsState :=
  { s with selectedTicket := none, isResolving := false }

/-- The handler `handleResolveSubmit`. -/
def WorkspaceTickets.handleResolveSubmit (workspaceId : String) (net : Config → Outcome Unit)
    (b : Browser) (s : TicketsState) : Step TicketsState :=
  match s.selectedTicket with
  | none => Step.skip b s
  | some selectedTicket =>
    if !truthy (some s.resolveAnswer) then Step.skip b s
    else
      let s1 : TicketsState := { s with isResolving := true, error := none }
      let body := Body.json
        [("answer", .str s.resolveAnswer), ("add_to_knowledge_base", .bool s.addToKb)]
      let r := api.request b
        (api.post ("/workspaces/" ++ workspaceId ++ "/tickets/" ++ selectedTicket.id ++ "/resolve")
          body []) net
      match r.result with
      | .ok _ =>
        let s2 : TicketsState :=
          { s1 with tickets := s.tickets.filter (fun t => t.id ≠ selectedTicket.id) }
        { browser := r.browser,
          state := { WorkspaceTickets.closeResolveModal s2 with isResolving := false },
          sent := [r.sent], timers := [], alerts := [] }
      | .error _ =>
        { browser := r.browser,
          state := { s1 with error := some "Ошибка при решении тикета.", isResolving := false },
          sent := [r.sent], timers := [], alerts := [] }

/-! ## pages/workspace/WorkspaceAnalytics.jsx -/

/-- An entry of `top_questions`. -/
structure TopQuestion where
  question : String
  count : Nat
  deriving DecidableEq, Repr

/-- An entry of `top_unanswered_questions`. -/
structure UnansweredQuestion where
  ticket_id : String
  question : String
  count : Nat
  deriving DecidableEq, Repr

/-- The `data` of a successful `GET /workspaces/:id/analytics`. -/
structure Stats where
  total_queries : Nat
  answered_queries : Nat
  unanswered_queries : Nat
  top_questions : List TopQuestion
  top_unanswered_questions : List UnansweredQuestion
  deriving DecidableEq, Repr

/-- The state cells of `WorkspaceAnalytics`. -/
structure AnalyticsState where
  stats : Option Stats
  loading : Bool
  error : Option String
  period : String
  deriving DecidableEq, Repr

/-- The initial cells of `WorkspaceAnalytics`: `useState('7d')` for the period. -/
def WorkspaceAnalytics.initial : AnalyticsState :=
  { stats := none, loading := true, error := none, period := "7d" }

/-- The `<option>` elements of the period selector. -/
inductive PeriodOption
  | day | week | month
  deriving DecidableEq, Repr

/-- The `value` attribute of an option. -/
def PeriodOption.value : PeriodOption → String
  | .day => "24h"
  | .week => "7d"
  | .month => "30d"

/-- The function `fetchAnalytics`: loads the statistics of the current period. -/
def WorkspaceAnalytics.fetchAnalytics (workspaceId : String) (net : Config → Outcome Stats)
    (b : Browser) (s : AnalyticsState) : Step AnalyticsState :=
  let s1 : AnalyticsState := { s with loading := true, error := none }
  let r := api.request b
    (api.get ("/workspaces/" ++ workspaceId ++ "/analytics") [("period", s.period)]) net
  match r.result with
  | .ok response =>
    { browser := r.browser, state := { s1 with stats := some response.data, loading := false },
      sent := [r.sent], timers := [], alerts := [] }
  | .error _ =>
    { browser := r.browser,
      state := { s1 with error := some "Не удалось загрузить аналитику.", loading := false },
      sent := [r.sent], timers := [], alerts := [] }

/-- The `onChange` of the period selector, followed by the effect: `setPeriod` with
the value of the chosen option, and `fetchAnalytics` again when the period differs
from the one of the previous render. -/
def WorkspaceAnalytics.onChange (workspaceId : String) (option : PeriodOption)
    (net : Config → Outcome Stats) (b : Browser) (s : AnalyticsState) : Step AnalyticsState :=
  let s1 : AnalyticsState := { s with period := option.value }
  if s1.period = s.period then Step.skip b s1
  else WorkspaceAnalytics.fetchAnalytics workspaceId net b s1

/-- The analytics tab living through a list of period selections, from any state:
the requests of all selections in order. -/
def WorkspaceAnalytics.run (workspaceId : String) :
    List (PeriodOption × (Config → Outcome Stats)) → Browser → AnalyticsState →
    Step AnalyticsState
  | [], b, s => Step.skip b s
  | (option, net) :: rest, b, s =>
    let r := WorkspaceAnalytics.onChange workspaceId option net b s
    let next := WorkspaceAnalytics.run workspaceId rest r.browser r.state
    { next with sent := r.sent ++ next.sent }

/-- The analytics tab from its mount: the mount effect fetches once, then the
selections follow. -/
def WorkspaceAnalytics.session (workspaceId : String) (mountNet : Config → Outcome Stats)
    (events : List (PeriodOption × (Config → Outcome Stats))) (b : Browser) :
    Step AnalyticsState :=
  let r := WorkspaceAnalytics.fetchAnalytics workspaceId mountNet b WorkspaceAnalytics.initial
  let next := WorkspaceAnalytics.run workspaceId events r.browser r.state
  { next with sent := r.sent ++ next.sent }

/-- The parts of a request the HTTP contract fixes: method, path, body and query
parameters. -/
def Config.line (c : Config) : Method × String × Body × Entries :=
  (c.method, c.url, c.data, c.params)

/-! ## Timers firing -/

/-- The pending timers of the knowledge tab firing one after the other, oldest
first, for at most `fuel` firings; a timer scheduled by a callback joins the end
of the queue.  `nets` gives the network for each firing.  The requests of all
firings are collected; `timers` of the result are the timers still pending. -/
def WorkspaceKnowledge.fireTimers (nets : Nat → Config → Outcome (List KnowledgeSource)) :
    Nat → List Timer → Browser → KnowledgeState → Step KnowledgeState
  | 0, pending, b, s => { browser := b, state := s, sent := [], timers := pending, alerts := [] }
  | _ + 1, [], b, s => Step.skip b s
  | fuel + 1, t :: rest, b, s =>
    let r := Callback.run (nets fuel) b s t.callback
    let next := WorkspaceKnowledge.fireTimers nets fuel (rest ++ r.timers) r.browser r.state
    { next with sent := r.sent ++ next.sent, alerts := r.alerts ++ next.alerts }

/-! ## Requests as they leave the client -/

/-- The request the chat's `handleSubmit` hands to the network. -/
def queryRequest (ls : Storage) (workspaceId : String) (s : ChatState) : Config :=
  api.interceptors.request.onFulfilled ls
    (api.post ("/workspaces/" ++ workspaceId ++ "/query")
      (.json [("question", .str s.input), ("session_id", .str s.sessionId)]) [])

/-- The request `handleResolveSubmit` hands to the network. -/
def resolveRequest (ls : Storage) (workspaceId : String) (ticket : Ticket) (s : TicketsState) :
    Config :=
  api.interceptors.request.onFulfilled ls
    (api.post ("/workspaces/" ++ workspaceId ++ "/tickets/" ++ ticket.id ++ "/resolve")
      (.json [("answer", .str s.resolveAnswer), ("add_to_knowledge_base", .bool s.addToKb)]) [])

/-- The request `handleFileUpload` hands to the network. -/
def uploadRequest (ls : Storage) (workspaceId : String) (file : File) : Config :=
  api.interceptors.request.onFulfilled ls
    (api.post ("/workspaces/" ++ workspaceId ++ "/knowledge/upload")
      (.formData [("file", file)]) [("Content-Type", "multipart/form-data")])

/-- The request `handleDeleteSource` hands to the network. -/
def deleteRequest (ls : Storage) (workspaceId sourceId : String) : Config :=
  api.interceptors.request.onFulfilled ls
    (api.delete ("/workspaces/" ++ workspaceId ++ "/knowledge/" ++ sourceId))

/-- The request `fetchKnowledgeSources` hands to the network. -/
def knowledgeRequest (ls : Storage) (workspaceId : String) : Config :=
  api.interceptors.request.onFulfilled ls
    (api.get ("/workspaces/" ++ workspaceId ++ "/knowledge") [])

/-! ## What the components render -/

/-- Property read `obj.key` on a JSON object; `none` is `undefined`. -/
def JsObject.get : JsObject → String → Option JsValue
  | [], _ => none
  | (k, v) :: rest, key => if k = key then some v else JsObject.get rest key

/-- Truthiness of a number: `+0`, `-0` and `NaN` are falsy.  Without its sign bit a
zero is `0` and a `NaN` lies above the bits of infinity. -/
def JsNumber.truthy (x : JsNumber) : Bool :=
  x.bits % 2 ^ 63 ≠ 0 && decide (x.bits % 2 ^ 63 ≤ 0x7FF0000000000000)

/-- Truthiness of a JSON scalar: `null`, `false`, the zeros, `NaN` and the empty
string are falsy. -/
def JsValue.truthy : JsValue → Bool
  | .null => false
  | .bool b => b
  | .num n => n.truthy
  | .str s => s ≠ ""

/-- The text React puts into the page for an expression child: strings and numbers
are shown, `undefined`, `null` and booleans render nothing.  `numberToString` is
the number-to-string conversion of JavaScript. -/
def renderChild (numberToString : JsNumber → String) : Option JsValue → String
  | none => ""
  | some .null => ""
  | some (.bool _) => ""
  | some (.num n) => numberToString n
  | some (.str s) => s

/-- The two paragraphs the chat renders for one source. -/
structure RenderedSource where
  title : String
  excerpt : String
  deriving DecidableEq, Repr

/-- The expression `source.page || 'N/A'`. -/
def WorkspaceChat.pageOrNA (source : JsObject) : Option JsValue :=
  match JsObject.get source "page" with
  | some v => if v.truthy then some v else some (.str "N/A")
  | none => some (.str "N/A")

/-- The body of `msg.sources.map(...)`: the title paragraph holds `source.name`
and `source.page || 'N/A'`, the excerpt paragraph holds `source.text_chunk`
between quoted dots. -/
def WorkspaceChat.renderSource (numberToString : JsNumber → String) (source : JsObject) :
    RenderedSource :=
  { title := renderChild numberToString (JsObject.get source "name") ++ " (стр. " ++
      renderChild numberToString (WorkspaceChat.pageOrNA source) ++ ")",
    excerpt := "\"..." ++ renderChild numberToString (JsObject.get source "text_chunk") ++
      "...\"" }

/-- The sources block of a message: rendered when
`msg.sender === 'ai' && msg.sources && msg.sources.length > 0`. -/
def WorkspaceChat.sourcesBlock (numberToString : JsNumber → String) (msg : Message) :
    Option (List RenderedSource) :=
  match msg.sources with
  | none => none
  | some sources =>
    if msg.sender = "ai" && decide (sources.length > 0) then
      some (sources.map (WorkspaceChat.renderSource numberToString))
    else none

/-- The `Modal` component: `null` unless `isOpen`, otherwise the window with its
children. -/
def Modal {α : Type} (isOpen : Bool) (children : α) : Option α :=
  if !isOpen then none else some children

/-- The form inside the resolve modal, as far as its content depends on the state:
the question shown, the error paragraph (rendered when `error && isResolving`) and
the `disabled` attribute of the submit button. -/
structure ResolveForm where
  question : Option String
  errorParagraph : Option String
  submitDisabled : Bool
  deriving DecidableEq, Repr

/-- What `WorkspaceTickets` renders, as far as it depends on the state. -/
structure TicketsView where
  loadingShown : Bool
  pageError : Option String
  list : Option (List Ticket)
  emptyShown : Bool
  modal : Option ResolveForm
  deriving DecidableEq, Repr

/-- The returned element of `WorkspaceTickets`. -/
def WorkspaceTickets.view (s : TicketsState) : TicketsView :=
  { loadingShown := s.loading,
    pageError :=
      if truthy s.error && !s.loading && s.selectedTicket.isNone then s.error else none,
    list := if !s.loading && !truthy s.error then some s.tickets else none,
    emptyShown := !s.loading && decide (s.tickets.length = 0),
    modal := Modal s.selectedTicket.isSome
      { question := s.selectedTicket.map (·.question),
        errorParagraph := if truthy s.error && s.isResolving then s.error else none,
        submitDisabled := s.isResolving } }

/-! ## Badges, icons, the chart and the ticket notice -/

/-- The lucide icons of the knowledge tab. -/
inductive Icon
  | checkCircle | loader | xCircle | file | type | fileText
  deriving DecidableEq, Repr

/-- An icon element with its `className`. -/
structure IconElement where
  icon : Icon
  className : String
  deriving DecidableEq, Repr

/-- The `<span>` a status badge is: its `className`, its icon and its label. -/
structure Badge where
  className : String
  icon : IconElement
  label : String
  deriving DecidableEq, Repr

/-- The `StatusBadge` component: a badge for `COMPLETED`, `PROCESSING` and
`FAILED`, `null` for every other status. -/
def StatusBadge (status : String) : Option Badge :=
  if status = "COMPLETED" then
    some { className := "flex items-center gap-1.5 text-xs font-medium text-green-700 bg-green-100 px-2.5 py-0.5 rounded-full",
           icon := ⟨.checkCircle, "w-3.5 h-3.5"⟩, label := "Готово" }
  else if status = "PROCESSING" then
    some { className := "flex items-center gap-1.5 text-xs font-medium text-yellow-700 bg-yellow-100 px-2.5 py-0.5 rounded-full",
           icon := ⟨.loader, "w-3.5 h-3.5 animate-spin"⟩, label := "Обработка" }
  else if status = "FAILED" then
    some { className := "flex items-center gap-1.5 text-xs font-medium text-red-700 bg-red-100 px-2.5 py-0.5 rounded-full",
           icon := ⟨.xCircle, "w-3.5 h-3.5"⟩, label := "Ошибка" }
  else none

/-- The `TypeIcon` component. -/
def TypeIcon (type : String) : IconElement :=
  if type = "FILE" then ⟨.file, "w-5 h-5 text-blue-600"⟩
  else if type = "Q&A" then ⟨.type, "w-5 h-5 text-purple-600"⟩
  else if type = "ARTICLE" then ⟨.fileText, "w-5 h-5 text-green-600"⟩
  else ⟨.file, "w-5 h-5 text-gray-500"⟩

/-- The UTF-16 code units of a character: one unit below `U+10000`, a surrogate
pair from there on. -/
def utf16Units (c : Char) : List Nat :=
  if c.toNat < 0x10000 then [c.toNat]
  else [0xD800 + (c.toNat - 0x10000) / 0x400, 0xDC00 + (c.toNat - 0x10000) % 0x400]

/-- A JavaScript string: its UTF-16 code units.  A slice may end in the first half
of a surrogate pair, so the result of a slice is kept in this form. -/
structure JsString where
  units : List Nat
  deriving DecidableEq, Repr

/-- The JavaScript string of a text. -/
def JsString.ofString (s : String) : JsString :=
  ⟨s.data.flatMap utf16Units⟩

/-- Concatenation of JavaScript strings. -/
def JsString.append (a b : JsString) : JsString :=
  ⟨a.units ++ b.units⟩

/-- The property `length` of a string: the number of its code units. -/
def jsLength (s : String) : Nat :=
  (JsString.ofString s).units.length

/-- The method `slice(0, n)` of a string: its first `n` code units. -/
def sliceFrom0 (s : String) (n : Nat) : JsString :=
  ⟨(JsString.ofString s).units.take n⟩

/-- An entry of the chart's data. -/
structure ChartEntry where
  name : JsString
  fullQuestion : String
  count : Nat
  deriving DecidableEq, Repr

/-- The value `chartData`: `stats?.top_questions.map(...)`, one entry per question,
the name cut to 30 code units and three dots when the question is longer;
`undefined` while there are no stats. -/
def WorkspaceAnalytics.chartData (stats : Option Stats) : Option (List ChartEntry) :=
  stats.map fun st => st.top_questions.map fun q =>
    { name :=
        if jsLength q.question > 30 then
          (sliceFrom0 q.question 30).append (JsString.ofString "...")
        else JsString.ofString q.question,
      fullQuestion := q.question,
      count := q.count }

/-- The ticket notice of a message: rendered when
`msg.sender === 'ai' && msg.ticket_id`, with `msg.ticket_id.slice(0, 8)` between
the opening text and the closing dots. -/
def WorkspaceChat.ticketNotice (msg : Message) : Option JsString :=
  match msg.ticket_id with
  | none => none
  | some ticket_id =>
    if msg.sender = "ai" && truthy (some ticket_id) then
      some (((JsString.ofString "(Создан тикет для администратора: ").append
        (sliceFrom0 ticket_id 8)).append (JsString.ofString "...)"))
    else none

/-! ## The ingestion pipeline -/

/-- Modelled from the spec: the status of a knowledge source (data model,
`status ∈ PENDING, PROCESSING, COMPLETED, FAILED`).  The ingestion pipeline that
owns the status is server code and is missing from the client sources. -/
inductive SourceStatus
  | PENDING | PROCESSING | COMPLETED | FAILED
  deriving DecidableEq, Repr

/-- Modelled from the spec: a knowledge source as the ingestion pipeline holds it:
its status, the attempts the running job has used, and `error_detail`. -/
structure IngestionSource where
  status : SourceStatus
  attempts : Nat
  error_detail : Option String
  deriving DecidableEq, Repr

/-- Modelled from the spec: a source is created on upload or Q&A submission and
enters `PENDING`. -/
def Ingestion.create : IngestionSource :=
  { status := .PENDING, attempts := 0, error_detail := none }

/-- Modelled from the spec: what the pipeline does to a source (section 4.1): the
scheduler picks it, a processing step fails, or all its chunks are durably
indexed. -/
inductive IngestionEvent
  | pick
  | stepFailed (detail : String)
  | indexed
  deriving DecidableEq, Repr

/-- Modelled from the spec: one move of the state machine of section 4.1, with the
attempt ceiling as configuration.  The scheduler moves a `PENDING` source to
`PROCESSING`; a failing step of a `PROCESSING` source is retried up to the ceiling
and then moves the source to `FAILED` with `error_detail`; a `PROCESSING` source
whose chunks are all indexed moves to `COMPLETED`; `COMPLETED` and `FAILED` are
terminal, and an event that does not apply leaves the source as it is. -/
def Ingestion.step (ceiling : Nat) (src : IngestionSource) : IngestionEvent → IngestionSource
  | .pick =>
    match src.status with
    | .PENDING => { src with status := .PROCESSING, attempts := 0 }
    | _ => src
  | .stepFailed detail =>
    match src.status with
    | .PROCESSING =>
      if src.attempts + 1 < ceiling then { src with attempts := src.attempts + 1 }
      else { src with status := .FAILED, error_detail := some detail }
    | _ => src
  | .indexed =>
    match src.status with
    | .PROCESSING => { src with status := .COMPLETED }
    | _ => src

/-- Modelled from the spec: the statuses a source takes while a list of events
happens to it, the first being the status it starts with. -/
def Ingestion.statuses (ceiling : Nat) : IngestionSource → List IngestionEvent → List SourceStatus
  | src, [] => [src.status]
  | src, ev :: rest => src.status :: Ingestion.statuses ceiling (Ingestion.step ceiling src ev) rest

/-- Modelled from the spec: the edges `PENDING -> PROCESSING`,
`PROCESSING -> COMPLETED` and `PROCESSING -> FAILED`. -/
def SourceStatus.edge : SourceStatus → SourceStatus → Bool
  | .PENDING, .PROCESSING => true
  | .PROCESSING, .COMPLETED => true
  | .PROCESSING, .FAILED => true
  | _, _ => false

/-- Modelled from the spec: a status that no transition leaves. -/
def SourceStatus.terminal : SourceStatus → Bool
  | .COMPLETED => true
  | .FAILED => true
  | _ => false

/-! ## The knowledge tab across renders -/

/-- A request as it leaves the knowledge tab: the route parameter of the render on
screen at that moment, whether a timer sent it, and the request itself. -/
structure SentRequest where
  route : String
  delayed : Bool
  config : Config
  deriving DecidableEq, Repr

/-- The knowledge tab between two events: the route parameter `useParams()`
returns, the browser, the state cells, the timers that have not fired yet and the
requests sent so far.  The component never clears a timer. -/
structure KnowledgeTab where
  workspaceId : String
  browser : Browser
  state : KnowledgeState
  pending : List Timer
  sent : List SentRequest

/-- What can happen to the tab.  `navigate` is a change of the route parameter
while the tab stays on screen (the route element is the same, so the component
keeps its cells and the effect on `[workspaceId]` runs again); `timer` is the
oldest pending timer firing; the others are the handlers and the setters the
inputs and buttons call. -/
inductive KnowledgeEvent
  | navigate (workspaceId : String) (net : Config → Outcome (List KnowledgeSource))
  | setSelectedFile (file : Option File)
  | setQaQuestion (value : String)
  | setQaAnswer (value : String)
  | setIsUploadModalOpen (value : Bool)
  | setIsQAModalOpen (value : Bool)
  | upload (now : Nat) (net : Config → Outcome Unit)
  | submitQA (net : Config → Outcome Unit)
  | deleteSource (confirm : Bool) (net : Config → Outcome Unit) (sourceId : String)
  | timer (net : Config → Outcome (List KnowledgeSource))

/-- Whether an event is a change of the route parameter. -/
def KnowledgeEvent.isNavigate : KnowledgeEvent → Bool
  | .navigate _ _ => true
  | _ => false

/-- The tab after a handler or callback has run: its requests are noted with the
route parameter on screen, its timers join the pending ones. -/
def KnowledgeTab.record (t : KnowledgeTab) (delayed : Bool) (r : Step KnowledgeState) :
    KnowledgeTab :=
  { t with
    browser := r.browser, state := r.state, pending := t.pending ++ r.timers,
    sent := t.sent ++ r.sent.map (fun c => ⟨t.workspaceId, delayed, c⟩) }

/-- The tab after its first render and mount effect. -/
def KnowledgeTab.mount (workspaceId : String) (net : Config → Outcome (List KnowledgeSource))
    (b : Browser) : KnowledgeTab :=
  KnowledgeTab.record ⟨workspaceId, b, WorkspaceKnowledge.initial, [], []⟩ false
    (WorkspaceKnowledge.fetchKnowledgeSources workspaceId net b WorkspaceKnowledge.initial)

/-- One event.  A handler runs with the route parameter of the render on screen; a
timer runs the callback it was given, with the route parameter of the render that
created that callback. -/
def KnowledgeTab.step (t : KnowledgeTab) : KnowledgeEvent → KnowledgeTab
  | .navigate workspaceId net =>
    if workspaceId = t.workspaceId then t
    else
      KnowledgeTab.record { t with workspaceId := workspaceId } false
        (WorkspaceKnowledge.fetchKnowledgeSources workspaceId net t.browser t.state)
  | .setSelectedFile file => { t with state := { t.state with selectedFile := file } }
  | .setQaQuestion value => { t with state := { t.state with qaQuestion := value } }
  | .setQaAnswer value => { t with state := { t.state with qaAnswer := value } }
  | .setIsUploadModalOpen value =>
    { t with state := { t.state with isUploadModalOpen := value } }
  | .setIsQAModalOpen value => { t with state := { t.state with isQAModalOpen := value } }
  | .upload now net =>
    t.record false (WorkspaceKnowledge.handleFileUpload t.workspaceId now net t.browser t.state)
  | .submitQA net =>
    t.record false (WorkspaceKnowledge.handleQASubmit t.workspaceId net t.browser t.state)
  | .deleteSource confirm net sourceId =>
    t.record false
      (WorkspaceKnowledge.handleDeleteSource t.workspaceId confirm net sourceId t.browser t.state)
  | .timer net =>
    match t.pending with
    | [] => t
    | first :: rest =>
      KnowledgeTab.record { t with pending := rest } true
        (Callback.run net t.browser t.state first.callback)

/-- The tab after a list of events. -/
def KnowledgeTab.run (t : KnowledgeTab) (events : List KnowledgeEvent) : KnowledgeTab :=
  events.foldl KnowledgeTab.step t

/-- The knowledge lines of the HTTP contract table of the spec, for workspace `id`:
the list, the upload of a file under the field `file`, the Q&A pair and the
removal of a source. -/
def Contract.knowledge (id : String) (line : Method × String × Body × Entries) : Prop :=
  line = (.GET, "/workspaces/" ++ id ++ "/knowledge", .empty, []) ∨
  (∃ file, line = (.POST, "/workspaces/" ++ id ++ "/knowledge/upload",
    .formData [("file", file)], [])) ∨
  (∃ question answer, line = (.POST, "/workspaces/" ++ id ++ "/knowledge/qa",
    .json [("question", .str question), ("answer", .str answer)], [])) ∨
  (∃ sourceId, line = (.DELETE, "/workspaces/" ++ id ++ "/knowledge/" ++ sourceId, .empty, []))

/-- What holds of a tab whose route has stayed at `workspaceId`: the pending timers
hold that workspace, and every request sent went to it. -/
def KnowledgeTab.Settled (workspaceId : String) (t : KnowledgeTab) : Prop :=
  t.workspaceId = workspaceId ∧
  (∀ tm, tm ∈ t.pending → tm.callback = .fetchKnowledgeSources workspaceId) ∧
  (∀ r, r ∈ t.sent → r.route = workspaceId ∧ Contract.knowledge workspaceId r.config.line)

/-! ## Lemmas on entries and storage -/

theorem Entries.get_set_self (es : Entries) (key value : String) :
    Entries.get (Entries.set es key value) key = some value := by
  induction es with
  | nil => simp [Entries.set, Entries.get]
  | cons kv rest ih =>
    obtain ⟨k, v⟩ := kv
    by_cases hk : k = key
    · simp [Entries.set, Entries.get, hk]
    · simp [Entries.set, Entries.get, hk, ih]

theorem Entries.get_set_of_ne (es : Entries) (key value other : String) (h : other ≠ key) :
    Entries.get (Entries.set es key value) other = Entries.get es other := by
  induction es with
  | nil => simp [Entries.set, Entries.get, Ne.symm h]
  | cons kv rest ih =>
    obtain ⟨k, v⟩ := kv
    by_cases hk : k = key
    · subst hk
      simp [Entries.set, Entries.get, Ne.symm h]
    · by_cases ho : k = other
      · subst ho
        simp [Entries.set, Entries.get, h]
      · simp [Entries.set, Entries.get, hk, ho, ih]

theorem Entries.get_remove_self (es : Entries) (key : String) :
    Entries.get (Entries.remove es key) key = none := by
  induction es with
  | nil => simp [Entries.remove, Entries.get]
  | cons kv rest ih =>
    obtain ⟨k, v⟩ := kv
    by_cases hk : k = key
    · simp [Entries.remove, hk, ih]
    · simp [Entries.remove, Entries.get, hk, ih]

theorem Entries.get_remove_of_ne (es : Entries) (key other : String) (h : other ≠ key) :
    Entries.get (Entries.remove es key) other = Entries.get es other := by
  induction es with
  | nil => simp [Entries.remove, Entries.get]
  | cons kv rest ih =>
    obtain ⟨k, v⟩ := kv
    by_cases hk : k = key
    · subst hk
      simp [Entries.remove, Entries.get, Ne.symm h, ih]
    · by_cases ho : k = other
      · subst ho
        simp [Entries.remove, Entries.get, h]
      · simp [Entries.remove, Entries.get, hk, ho, ih]

theorem Storage.getItem_setItem_self (ls : Storage) (key value : String) :
    (ls.setItem key value).getItem key = some value :=
  Entries.get_set_self ls.items key value

theorem Storage.getItem_setItem_of_ne (ls : Storage) (key value other : String)
    (h : other ≠ key) : (ls.setItem key value).getItem other = ls.getItem other :=
  Entries.get_set_of_ne ls.items key value other h

theorem Storage.getItem_removeItem_self (ls : Storage) (key : String) :
    (ls.removeItem key).getItem key = none :=
  Entries.get_remove_self ls.items key

theorem Storage.getItem_removeItem_of_ne (ls : Storage) (key other : String)
    (h : other ≠ key) : (ls.removeItem key).getItem other = ls.getItem other :=
  Entries.get_remove_of_ne ls.items key other h

/-- After both removals of a logout neither key is stored. -/
theorem Storage.session_cleared (ls : Storage) :
    ((ls.removeItem "access_token").removeItem "user").getItem "access_token" = none ∧
    ((ls.removeItem "access_token").removeItem "user").getItem "user" = none := by
  constructor
  · rw [Storage.getItem_removeItem_of_ne _ _ _ (by decide)]
    exact Storage.getItem_removeItem_self _ _
  · exact Storage.getItem_removeItem_self _ _

theorem truthy_eq_true_iff (token : Option String) :
    truthy token = true ↔ ∃ t, token = some t ∧ t ≠ "" := by
  cases token with
  | none => simp [truthy]
  | some t => simp [truthy]

/-- Without a truthy token the request interceptor returns its argument. -/
theorem request_onFulfilled_of_falsy (ls : Storage) (config : Config)
    (h : truthy (ls.getItem "access_token") = false) :
    api.interceptors.request.onFulfilled ls config = config := by
  simp [api.interceptors.request.onFulfilled, h]

/-- With a non-empty stored token the request interceptor writes the bearer
header and nothing else. -/
theorem request_onFulfilled_of_token (ls : Storage) (config : Config) (token : String)
    (ht : ls.getItem "access_token" = some token) (hne : token ≠ "") :
    api.interceptors.request.onFulfilled ls config
      = { config with
          headers := Entries.set config.headers "Authorization" ("Bearer " ++ token) } := by
  simp [api.interceptors.request.onFulfilled, ht, truthy, hne]

/-- The error callback on a 401. -/
theorem response_onRejected_of_unauthorized {α : Type} (b : Browser) (error : AxiosError)
    (h : error.isUnauthorized = true) :
    @api.interceptors.response.onRejected α b error
      = ({ localStorage := (b.localStorage.removeItem "access_token").removeItem "user",
           location := "/login" }, .error error) := by
  simp [api.interceptors.response.onRejected, h]

/-- The error callback on any other error. -/
theorem response_onRejected_of_other {α : Type} (b : Browser) (error : AxiosError)
    (h : error.isUnauthorized = false) :
    @api.interceptors.response.onRejected α b error = (b, .error error) := by
  simp [api.interceptors.response.onRejected, h]

theorem isUnauthorized_iff (error : AxiosError) :
    error.isUnauthorized = true ↔ ∃ r, error.response = some r ∧ r.status = 401 := by
  cases hr : error.response with
  | none => simp [AxiosError.isUnauthorized, hr]
  | some r => simp [AxiosError.isUnauthorized, hr]

/-! ## Routing -/

/-- C1: once loading has finished, `ProtectedRoute` renders the redirect to `/login`
(with `replace`) when `user` is null and exactly its children otherwise; on every
route `App` shows a protected page only when `user` is non-null, and every
protected route is rendered through `ProtectedRoute`. -/
theorem protected_page_requires_user (auth : AuthState) (route : Route) (children : Element)
    (h : auth.loading = false) :
    (auth.user = none → ProtectedRoute auth.user children = .navigate "/login" true) ∧
    (auth.user ≠ none → ProtectedRoute auth.user children = children) ∧
    ((App auth route).showsProtected = true → auth.user ≠ none) ∧
    (route.isProtected = true → App auth route = ProtectedRoute auth.user route.children) := by
  refine ⟨?_, ?_, ?_, ?_⟩
  · intro hu
    simp [ProtectedRoute, hu]
  · intro hu
    cases hx : auth.user with
    | none => exact absurd hx hu
    | some u => simp [ProtectedRoute]
  · intro hs hu
    cases route <;> simp [App, h, hu, ProtectedRoute, Element.showsProtected] at hs
  · intro hp
    cases route <;> simp [Route.isProtected] at hp <;> simp [App, h, Route.children]

/-- C1 at a signed-out visitor of a workspace tab: the redirect is rendered. -/
theorem protected_page_requires_user_witness :
    (AuthState.mk none false).loading = false ∧
    App (AuthState.mk none false) (.workspaceTab "w1" .tickets) = .navigate "/login" true := by
  have h := protected_page_requires_user (AuthState.mk none false) (.workspaceTab "w1" .tickets)
    (.workspaceLayout (.workspaceTab .tickets)) rfl
  refine ⟨rfl, ?_⟩
  rw [h.2.2.2 rfl]
  exact h.1 rfl

/-! ## The interceptors -/

/-- C2: with a non-empty stored `access_token` the request interceptor returns the
config with `Authorization` equal to `Bearer ` followed by the token, every other
header and every other field unchanged; with no token or an empty one it returns
the config as it is. -/
theorem request_interceptor_bearer (ls : Storage) (config : Config) :
    (∀ token, ls.getItem "access_token" = some token → token ≠ "" →
      Entries.get (api.interceptors.request.onFulfilled ls config).headers "Authorization"
        = some ("Bearer " ++ token) ∧
      (∀ name, name ≠ "Authorization" →
        Entries.get (api.interceptors.request.onFulfilled ls config).headers name
          = Entries.get config.headers name) ∧
      (api.interceptors.request.onFulfilled ls config).method = config.method ∧
      (api.interceptors.request.onFulfilled ls config).baseURL = config.baseURL ∧
      (api.interceptors.request.onFulfilled ls config).url = config.url ∧
      (api.interceptors.request.onFulfilled ls config).data = config.data ∧
      (api.interceptors.request.onFulfilled ls config).params = config.params) ∧
    ((ls.getItem "access_token" = none ∨ ls.getItem "access_token" = some "") →
      api.interceptors.request.onFulfilled ls config = config) := by
  constructor
  · intro token ht hne
    rw [request_onFulfilled_of_token ls config token ht hne]
    exact ⟨Entries.get_set_self _ _ _, fun name hn => Entries.get_set_of_ne _ _ _ _ hn,
      rfl, rfl, rfl, rfl, rfl⟩
  · intro h
    apply request_onFulfilled_of_falsy
    rcases h with h | h <;> simp [h, truthy]

/-- C2 at a stored token `abc` and an upload request: the header is added and the
content type is kept. -/
theorem request_interceptor_bearer_witness :
    Entries.get (api.interceptors.request.onFulfilled ⟨[("access_token", "abc")]⟩
      (api.post "/x" .empty [("Content-Type", "multipart/form-data")])).headers "Authorization"
      = some "Bearer abc" ∧
    Entries.get (api.interceptors.request.onFulfilled ⟨[("access_token", "abc")]⟩
      (api.post "/x" .empty [("Content-Type", "multipart/form-data")])).headers "Content-Type"
      = some "multipart/form-data" := by
  have h := (request_interceptor_bearer ⟨[("access_token", "abc")]⟩
    (api.post "/x" .empty [("Content-Type", "multipart/form-data")])).1 "abc" rfl (by decide)
  exact ⟨h.1, (h.2.1 "Content-Type" (by decide)).trans rfl⟩

/-- C3: the error callback of the response interceptor removes `access_token` and
`user` and sets the location to `/login` exactly when the error carries a response
with status 401; for every other error the browser state is unchanged; it always
rejects with the error it was given; the success callback returns the response it
was given. -/
theorem response_interceptor_logout_on_401 {α : Type} (b : Browser) (error : AxiosError)
    (response : Response α) :
    ((∃ r, error.response = some r ∧ r.status = 401) →
      (@api.interceptors.response.onRejected α b error).1.localStorage
        = (b.localStorage.removeItem "access_token").removeItem "user" ∧
      (@api.interceptors.response.onRejected α b error).1.localStorage.getItem "access_token"
        = none ∧
      (@api.interceptors.response.onRejected α b error).1.localStorage.getItem "user" = none ∧
      (@api.interceptors.response.onRejected α b error).1.location = "/login") ∧
    ((¬ ∃ r, error.response = some r ∧ r.status = 401) →
      (@api.interceptors.response.onRejected α b error).1 = b) ∧
    (@api.interceptors.response.onRejected α b error).2 = .error error ∧
    api.interceptors.response.onFulfilled response = response := by
  refine ⟨?_, ?_, ?_, rfl⟩
  · intro h
    rw [response_onRejected_of_unauthorized b error ((isUnauthorized_iff error).2 h)]
    exact ⟨rfl, (Storage.session_cleared _).1, (Storage.session_cleared _).2, rfl⟩
  · intro h
    have hu : error.isUnauthorized = false := by
      cases hx : error.isUnauthorized with
      | false => rfl
      | true => exact absurd ((isUnauthorized_iff error).1 hx) h
    rw [response_onRejected_of_other b error hu]
  · cases hu : error.isUnauthorized with
    | false => rw [response_onRejected_of_other b error hu]
    | true => rw [response_onRejected_of_unauthorized b error hu]

/-- C3 at a 403 answer: the stored session stays. -/
theorem response_interceptor_logout_on_401_witness :
    (@api.interceptors.response.onRejected Unit
      ⟨⟨[("access_token", "abc"), ("user", "u")]⟩, "/"⟩ ⟨"Forbidden", some ⟨403, none⟩⟩).1
      = ⟨⟨[("access_token", "abc"), ("user", "u")]⟩, "/"⟩ :=
  (@response_interceptor_logout_on_401 Unit
    ⟨⟨[("access_token", "abc"), ("user", "u")]⟩, "/"⟩ ⟨"Forbidden", some ⟨403, none⟩⟩
    ⟨200, ()⟩).2.1 (by simp)

/-! ## The authentication context -/

/-- A successful call leaves the browser as it was. -/
theorem api.request_ok {α : Type} (b : Browser) (config : Config) (net : Config → Outcome α)
    (response : Response α)
    (h : net (api.interceptors.request.onFulfilled b.localStorage config) = .ok response) :
    (api.request b config net).browser = b ∧
    (api.request b config net).result = .ok response := by
  simp [api.request, h, api.interceptors.response.onFulfilled]

/-- A failed call goes through the error callback of the response interceptor. -/
theorem api.request_error {α : Type} (b : Browser) (config : Config) (net : Config → Outcome α)
    (error : AxiosError)
    (h : net (api.interceptors.request.onFulfilled b.localStorage config) = .error error) :
    (api.request b config net).browser = (@api.interceptors.response.onRejected α b error).1 ∧
    (api.request b config net).result = .error error := by
  cases hu : error.isUnauthorized <;>
    simp [api.request, h, api.interceptors.response.onRejected, hu]

/-- Every call hands exactly the intercepted config to the network. -/
theorem api.request_sent {α : Type} (b : Browser) (config : Config) (net : Config → Outcome α) :
    (api.request b config net).sent = api.interceptors.request.onFulfilled b.localStorage config := by
  simp only [api.request]
  split <;> rfl

theorem truthy_eq_false_iff (token : Option String) :
    truthy token = false ↔ token = none ∨ token = some "" := by
  cases token with
  | none => simp [truthy]
  | some t => simp [truthy]

/-- The intercepted config keeps method, path, body and query parameters. -/
theorem request_onFulfilled_line (ls : Storage) (config : Config) :
    (api.interceptors.request.onFulfilled ls config).line = config.line := by
  simp only [api.interceptors.request.onFulfilled]
  split <;> rfl

/-- The result of `login` when the request succeeds. -/
theorem login_of_ok (stringify : User → String) (net : Config → Outcome LoginData)
    (email password : String) (w : AuthWorld) (response : Response LoginData)
    (h : net (loginRequest w.browser.localStorage email password) = .ok response) :
    login stringify net email password w
      = ({ browser := { w.browser with
             localStorage := (w.browser.localStorage.setItem "access_token"
               response.data.access_token).setItem "user" (stringify response.data.user) },
           auth := { w.auth with user := some response.data.user },
           sent := w.sent ++ [loginRequest w.browser.localStorage email password] }, .ok ()) := by
  have hr := api.request_ok w.browser _ net response h
  have hs := api.request_sent w.browser
    (api.post "/auth/login" (.json [("email", .str email), ("password", .str password)]) []) net
  simp only [login, hr.1, hr.2, hs, loginRequest]

/-- The result of `login` when the request fails. -/
theorem login_of_error (stringify : User → String) (net : Config → Outcome LoginData)
    (email password : String) (w : AuthWorld) (error : AxiosError)
    (h : net (loginRequest w.browser.localStorage email password) = .error error) :
    login stringify net email password w
      = ({ w with
           browser := (@api.interceptors.response.onRejected LoginData w.browser error).1,
           sent := w.sent ++ [loginRequest w.browser.localStorage email password] },
         .error error) := by
  have hr := api.request_error w.browser _ net error h
  have hs := api.request_sent w.browser
    (api.post "/auth/login" (.json [("email", .str email), ("password", .str password)]) []) net
  simp only [login, hr.1, hr.2, hs, loginRequest]

/-- C4, the claim as stated fails: with a session stored (by another tab, say), a
login that is answered with 401 is rethrown to the caller, and `localStorage` is
not as before the call: the response interceptor has removed both keys. -/
theorem login_rejected_401_changes_storage :
    (login (fun u => u.email) (fun _ => .error ⟨"Unauthorized", some ⟨401, none⟩⟩)
      "admin@company.com" "wrong"
      ⟨⟨⟨[("access_token", "abc"), ("user", "u")]⟩, "/login"⟩, ⟨none, false⟩, []⟩).2
      = .error ⟨"Unauthorized", some ⟨401, none⟩⟩ ∧
    (login (fun u => u.email) (fun _ => .error ⟨"Unauthorized", some ⟨401, none⟩⟩)
      "admin@company.com" "wrong"
      ⟨⟨⟨[("access_token", "abc"), ("user", "u")]⟩, "/login"⟩, ⟨none, false⟩, []⟩).1.browser.localStorage
      ≠ ⟨[("access_token", "abc"), ("user", "u")]⟩ ∧
    (login (fun u => u.email) (fun _ => .error ⟨"Unauthorized", some ⟨401, none⟩⟩)
      "admin@company.com" "wrong"
      ⟨⟨⟨[("access_token", "abc"), ("user", "u")]⟩, "/login"⟩, ⟨none, false⟩, []⟩).1.browser.localStorage
      = ⟨[]⟩ :=
  ⟨rfl, by decide, by decide⟩

/-- C4, amended: when `POST /auth/login` succeeds, `localStorage` afterwards holds
the returned `access_token` and the JSON of the returned user, and the state
`user` is that user; when it fails, the same error is rethrown and the state is
as before, and so are `localStorage` and the location unless the error is a 401
response, in which case the response interceptor has removed `access_token` and
`user` and set the location to `/login`. -/
theorem login_stores_session_or_rethrows (stringify : User → String)
    (net : Config → Outcome LoginData) (email password : String) (w : AuthWorld) :
    (∀ response, net (loginRequest w.browser.localStorage email password) = .ok response →
      (login stringify net email password w).2 = .ok () ∧
      (login stringify net email password w).1.browser.localStorage.getItem "access_token"
        = some response.data.access_token ∧
      (login stringify net email password w).1.browser.localStorage.getItem "user"
        = some (stringify response.data.user) ∧
      (login stringify net email password w).1.auth.user = some response.data.user) ∧
    (∀ error, net (loginRequest w.browser.localStorage email password) = .error error →
      (login stringify net email password w).2 = .error error ∧
      (login stringify net email password w).1.auth = w.auth ∧
      (error.isUnauthorized = false →
        (login stringify net email password w).1.browser = w.browser) ∧
      (error.isUnauthorized = true →
        (login stringify net email password w).1.browser
          = { localStorage := (w.browser.localStorage.removeItem "access_token").removeItem "user",
              location := "/login" })) := by
  constructor
  · intro response h
    rw [login_of_ok stringify net email password w response h]
    refine ⟨rfl, ?_, Storage.getItem_setItem_self _ _ _, rfl⟩
    show ((w.browser.localStorage.setItem "access_token" response.data.access_token).setItem
      "user" (stringify response.data.user)).getItem "access_token" = _
    rw [Storage.getItem_setItem_of_ne _ _ _ _ (by decide)]
    exact Storage.getItem_setItem_self _ _ _
  · intro error h
    rw [login_of_error stringify net email password w error h]
    refine ⟨rfl, rfl, ?_, ?_⟩
    · intro hu
      show (@api.interceptors.response.onRejected LoginData w.browser error).1 = _
      rw [response_onRejected_of_other w.browser error hu]
    · intro hu
      show (@api.interceptors.response.onRejected LoginData w.browser error).1 = _
      rw [response_onRejected_of_unauthorized w.browser error hu]

/-- C4, amended, at a server that is down (no response): nothing changes. -/
theorem login_stores_session_or_rethrows_witness :
    (login (fun u => u.email) (fun _ => .error ⟨"Network Error", none⟩) "admin@company.com" "pw"
      ⟨⟨⟨[("access_token", "abc"), ("user", "u")]⟩, "/login"⟩, ⟨none, false⟩, []⟩).1.browser
      = ⟨⟨[("access_token", "abc"), ("user", "u")]⟩, "/login"⟩ :=
  ((login_stores_session_or_rethrows (fun u => u.email)
    (fun _ => .error ⟨"Network Error", none⟩) "admin@company.com" "pw"
    ⟨⟨⟨[("access_token", "abc"), ("user", "u")]⟩, "/login"⟩, ⟨none, false⟩, []⟩).2
      ⟨"Network Error", none⟩ rfl).2.2.1 rfl

/-- The start-up check without a truthy token: no request, only `loading` changes. -/
theorem useEffect_of_falsy (stringify : User → String) (net : Config → Outcome User)
    (w : AuthWorld) (h : truthy (w.browser.localStorage.getItem "access_token") = false) :
    AuthProvider.useEffect stringify net w = { w with auth := { w.auth with loading := false } } := by
  simp [AuthProvider.useEffect, h]

/-- The start-up check with a truthy token and a successful `GET /auth/me`. -/
theorem useEffect_of_ok (stringify : User → String) (net : Config → Outcome User)
    (w : AuthWorld) (response : Response User)
    (ht : truthy (w.browser.localStorage.getItem "access_token") = true)
    (h : net (meRequest w.browser.localStorage) = .ok response) :
    AuthProvider.useEffect stringify net w
      = { browser := { w.browser with
            localStorage := w.browser.localStorage.setItem "user" (stringify response.data) },
          auth := { user := some response.data, loading := false },
          sent := w.sent ++ [meRequest w.browser.localStorage] } := by
  have hr := api.request_ok w.browser _ net response h
  have hs := api.request_sent w.browser (api.get "/auth/me" []) net
  simp only [AuthProvider.useEffect, ht, if_true, hr.1, hr.2, hs, meRequest]

/-- The start-up check with a truthy token and a failed `GET /auth/me`. -/
theorem useEffect_of_error (stringify : User → String) (net : Config → Outcome User)
    (w : AuthWorld) (error : AxiosError)
    (ht : truthy (w.browser.localStorage.getItem "access_token") = true)
    (h : net (meRequest w.browser.localStorage) = .error error) :
    AuthProvider.useEffect stringify net w
      = { browser := { (@api.interceptors.response.onRejected User w.browser error).1 with
            localStorage :=
              ((@api.interceptors.response.onRejected User w.browser error).1.localStorage.removeItem
                "access_token").removeItem "user" },
          auth := { w.auth with loading := false },
          sent := w.sent ++ [meRequest w.browser.localStorage] } := by
  have hr := api.request_error w.browser _ net error h
  have hs := api.request_sent w.browser (api.get "/auth/me" []) net
  simp only [AuthProvider.useEffect, ht, if_true, hr.1, hr.2, hs, meRequest]

/-- C5: the start-up token check always ends with `loading = false`.  With no stored
`access_token` (or an empty one) it sends no request, `user` stays null and the
browser is untouched.  With a stored non-empty token it sends exactly one request,
`GET /auth/me`; when that request succeeds, `user` is the response data and the
JSON of that data is stored under `user`; when it fails, `access_token` and `user`
are both absent from `localStorage` afterwards and `user` stays null. -/
theorem startup_token_check (stringify : User → String) (net : Config → Outcome User)
    (b : Browser) :
    (AuthProvider.useEffect stringify net (AuthProvider.mount b)).auth.loading = false ∧
    ((b.localStorage.getItem "access_token" = none ∨
        b.localStorage.getItem "access_token" = some "") →
      (AuthProvider.useEffect stringify net (AuthProvider.mount b)).sent = [] ∧
      (AuthProvider.useEffect stringify net (AuthProvider.mount b)).auth.user = none ∧
      (AuthProvider.useEffect stringify net (AuthProvider.mount b)).browser = b) ∧
    ((∃ token, b.localStorage.getItem "access_token" = some token ∧ token ≠ "") →
      (AuthProvider.useEffect stringify net (AuthProvider.mount b)).sent
        = [meRequest b.localStorage] ∧
      (meRequest b.localStorage).line = (Method.GET, "/auth/me", Body.empty, [])) ∧
    (∀ c response, c ∈ (AuthProvider.useEffect stringify net (AuthProvider.mount b)).sent →
      net c = .ok response →
      (AuthProvider.useEffect stringify net (AuthProvider.mount b)).auth.user
        = some response.data ∧
      (AuthProvider.useEffect stringify net (AuthProvider.mount b)).browser.localStorage.getItem
        "user" = some (stringify response.data)) ∧
    (∀ c error, c ∈ (AuthProvider.useEffect stringify net (AuthProvider.mount b)).sent →
      net c = .error error →
      (AuthProvider.useEffect stringify net (AuthProvider.mount b)).browser.localStorage.getItem
        "access_token" = none ∧
      (AuthProvider.useEffect stringify net (AuthProvider.mount b)).browser.localStorage.getItem
        "user" = none ∧
      (AuthProvider.useEffect stringify net (AuthProvider.mount b)).auth.user = none) := by
  cases ht : truthy (b.localStorage.getItem "access_token") with
  | false =>
    have hnot : ¬ ∃ token, b.localStorage.getItem "access_token" = some token ∧ token ≠ "" := by
      intro hex
      rw [(truthy_eq_true_iff _).2 hex] at ht
      exact Bool.noConfusion ht
    have e := useEffect_of_falsy stringify net (AuthProvider.mount b) ht
    rw [e]
    refine ⟨rfl, fun _ => ⟨rfl, rfl, rfl⟩, fun h => absurd h hnot, ?_, ?_⟩
    · intro c response hc
      exact absurd hc (List.not_mem_nil c)
    · intro c error hc
      exact absurd hc (List.not_mem_nil c)
  | true =>
    have hnot : ¬ (b.localStorage.getItem "access_token" = none ∨
        b.localStorage.getItem "access_token" = some "") := by
      intro hor
      rw [(truthy_eq_false_iff _).2 hor] at ht
      exact Bool.noConfusion ht
    cases hn : net (meRequest b.localStorage) with
    | ok response =>
      have e := useEffect_of_ok stringify net (AuthProvider.mount b) response ht hn
      rw [e]
      refine ⟨rfl, fun h => absurd h hnot, fun _ => ⟨rfl, ?_⟩, ?_, ?_⟩
      · exact request_onFulfilled_line b.localStorage (api.get "/auth/me" [])
      · intro c r hc hr
        have hc2 : c = meRequest b.localStorage := by
          simpa [AuthProvider.mount] using hc
        rw [hc2, hn] at hr
        cases hr
        exact ⟨rfl, Storage.getItem_setItem_self _ _ _⟩
      · intro c err hc hr
        have hc2 : c = meRequest b.localStorage := by
          simpa [AuthProvider.mount] using hc
        rw [hc2, hn] at hr
        cases hr
    | error error =>
      have e := useEffect_of_error stringify net (AuthProvider.mount b) error ht hn
      rw [e]
      refine ⟨rfl, fun h => absurd h hnot, fun _ => ⟨rfl, ?_⟩, ?_, ?_⟩
      · exact request_onFulfilled_line b.localStorage (api.get "/auth/me" [])
      · intro c r hc hr
        have hc2 : c = meRequest b.localStorage := by
          simpa [AuthProvider.mount] using hc
        rw [hc2, hn] at hr
        cases hr
      · intro c err _ _
        exact ⟨(Storage.session_cleared _).1, (Storage.session_cleared _).2, rfl⟩

/-- C5 at a stored token whose check is answered with 401: the session is removed,
`user` is null and `loading` is false. -/
theorem startup_token_check_witness :
    (AuthProvider.useEffect (fun u => u.email)
      (fun _ => .error ⟨"Unauthorized", some ⟨401, none⟩⟩)
      (AuthProvider.mount ⟨⟨[("access_token", "abc"), ("user", "u")]⟩, "/"⟩)).auth.loading
      = false ∧
    (AuthProvider.useEffect (fun u => u.email)
      (fun _ => .error ⟨"Unauthorized", some ⟨401, none⟩⟩)
      (AuthProvider.mount ⟨⟨[("access_token", "abc"), ("user", "u")]⟩, "/"⟩)).browser.localStorage.getItem
      "access_token" = none := by
  have h := startup_token_check (fun u => u.email)
    (fun _ => .error ⟨"Unauthorized", some ⟨401, none⟩⟩)
    ⟨⟨[("access_token", "abc"), ("user", "u")]⟩, "/"⟩
  refine ⟨h.1, (h.2.2.2.2 (meRequest ⟨[("access_token", "abc"), ("user", "u")]⟩)
    ⟨"Unauthorized", some ⟨401, none⟩⟩ ?_ rfl).1⟩
  rw [(h.2.2.1 ⟨"abc", rfl, by decide⟩).1]
  exact List.mem_singleton.2 rfl

/-- C6: from every state, `logout` leaves `localStorage` without `access_token` and
without `user` and sets the state `user` to null; a request passed through the
request interceptor afterwards comes back as it went in, so no `Authorization`
header is added, and a request that carried none is sent with none. -/
theorem logout_clears_session (w : AuthWorld) (config : Config) :
    (logout w).browser.localStorage.getItem "access_token" = none ∧
    (logout w).browser.localStorage.getItem "user" = none ∧
    (logout w).auth.user = none ∧
    api.interceptors.request.onFulfilled (logout w).browser.localStorage config = config ∧
    (Entries.get config.headers "Authorization" = none →
      ∀ {α : Type} (net : Config → Outcome α),
        Entries.get (api.request (logout w).browser config net).sent.headers "Authorization"
          = none) := by
  have hc := Storage.session_cleared w.browser.localStorage
  have hi : api.interceptors.request.onFulfilled (logout w).browser.localStorage config = config := by
    apply request_onFulfilled_of_falsy
    show truthy (((w.browser.localStorage.removeItem "access_token").removeItem "user").getItem
      "access_token") = false
    rw [hc.1]
    rfl
  refine ⟨hc.1, hc.2, rfl, hi, ?_⟩
  intro hnone α net
  rw [api.request_sent, hi]
  exact hnone

/-- C6 at a signed-in session: after `logout` a knowledge request carries no
`Authorization` header. -/
theorem logout_clears_session_witness :
    Entries.get (api.request
      (logout ⟨⟨⟨[("access_token", "abc"), ("user", "u")]⟩, "/"⟩, ⟨some ⟨"a@b.c", "A"⟩, false⟩,
        []⟩).browser
      (api.get "/workspaces/w1/knowledge" [])
      (fun _ => (.error ⟨"Network Error", none⟩ : Outcome Unit))).sent.headers "Authorization"
      = none :=
  (logout_clears_session
    ⟨⟨⟨[("access_token", "abc"), ("user", "u")]⟩, "/"⟩, ⟨some ⟨"a@b.c", "A"⟩, false⟩, []⟩
    (api.get "/workspaces/w1/knowledge" [])).2.2.2.2 rfl
    (fun _ => (.error ⟨"Network Error", none⟩ : Outcome Unit))

/-! ## The requests of the workspace tabs -/

/-- The intercepted config keeps every header other than `Authorization`. -/
theorem request_onFulfilled_header (ls : Storage) (config : Config) (name : String)
    (h : name ≠ "Authorization") :
    Entries.get (api.interceptors.request.onFulfilled ls config).headers name
      = Entries.get config.headers name := by
  simp only [api.interceptors.request.onFulfilled]
  split
  · exact Entries.get_set_of_ne _ _ _ _ h
  · rfl

/-- The request of `fetchKnowledgeSources`. -/
theorem fetchKnowledgeSources_sent (workspaceId : String)
    (net : Config → Outcome (List KnowledgeSource)) (b : Browser) (s : KnowledgeState) :
    (WorkspaceKnowledge.fetchKnowledgeSources workspaceId net b s).sent
      = [api.interceptors.request.onFulfilled b.localStorage
          (api.get ("/workspaces/" ++ workspaceId ++ "/knowledge") [])] := by
  simp only [WorkspaceKnowledge.fetchKnowledgeSources]
  split <;> simp [api.request_sent]

/-- The request of `handleFileUpload`. -/
theorem handleFileUpload_sent (workspaceId : String) (now : Nat) (net : Config → Outcome Unit)
    (b : Browser) (s : KnowledgeState) :
    (WorkspaceKnowledge.handleFileUpload workspaceId now net b s).sent
      = match s.selectedFile with
        | none => []
        | some file => [api.interceptors.request.onFulfilled b.localStorage
            (api.post ("/workspaces/" ++ workspaceId ++ "/knowledge/upload")
              (.formData [("file", file)]) [("Content-Type", "multipart/form-data")])] := by
  simp only [WorkspaceKnowledge.handleFileUpload]
  cases s.selectedFile with
  | none => rfl
  | some file =>
    simp only []
    split <;> simp [api.request_sent]

/-- The timers of `handleFileUpload` hold the route parameter of the render. -/
theorem handleFileUpload_timers (workspaceId : String) (now : Nat)
    (net : Config → Outcome Unit) (b : Browser) (s : KnowledgeState) (t : Timer)
    (h : t ∈ (WorkspaceKnowledge.handleFileUpload workspaceId now net b s).timers) :
    t.callback = .fetchKnowledgeSources workspaceId := by
  simp only [WorkspaceKnowledge.handleFileUpload] at h
  cases hf : s.selectedFile with
  | none => simp [hf, Step.skip] at h
  | some file =>
    simp only [hf] at h
    split at h <;> simp at h
    rw [h]

/-- The request of `handleQASubmit`. -/
theorem handleQASubmit_sent (workspaceId : String) (net : Config → Outcome Unit)
    (b : Browser) (s : KnowledgeState) :
    (WorkspaceKnowledge.handleQASubmit workspaceId net b s).sent
      = [api.interceptors.request.onFulfilled b.localStorage
          (api.post ("/workspaces/" ++ workspaceId ++ "/knowledge/qa")
            (.json [("question", .str s.qaQuestion), ("answer", .str s.qaAnswer)]) [])] := by
  simp only [WorkspaceKnowledge.handleQASubmit]
  split <;> simp [api.request_sent]

/-- The timers of `handleQASubmit` hold the route parameter of the render. -/
theorem handleQASubmit_timers (workspaceId : String) (net : Config → Outcome Unit)
    (b : Browser) (s : KnowledgeState) (t : Timer)
    (h : t ∈ (WorkspaceKnowledge.handleQASubmit workspaceId net b s).timers) :
    t.callback = .fetchKnowledgeSources workspaceId := by
  simp only [WorkspaceKnowledge.handleQASubmit] at h
  split at h <;> simp at h
  rw [h]

/-- The request of `handleDeleteSource`. -/
theorem handleDeleteSource_sent (workspaceId : String) (confirm : Bool)
    (net : Config → Outcome Unit) (sourceId : String) (b : Browser) (s : KnowledgeState) :
    (WorkspaceKnowledge.handleDeleteSource workspaceId confirm net sourceId b s).sent
      = if confirm then [api.interceptors.request.onFulfilled b.localStorage
          (api.delete ("/workspaces/" ++ workspaceId ++ "/knowledge/" ++ sourceId))] else [] := by
  simp only [WorkspaceKnowledge.handleDeleteSource]
  cases confirm with
  | false => rfl
  | true =>
    simp only [Bool.not_true, Bool.false_eq_true, if_false, if_true]
    split <;> simp [api.request_sent]

/-- The request of `fetchTickets`. -/
theorem fetchTickets_sent (workspaceId : String) (net : Config → Outcome (List Ticket))
    (b : Browser) (s : TicketsState) :
    (WorkspaceTickets.fetchTickets workspaceId net b s).sent
      = [api.interceptors.request.onFulfilled b.localStorage
          (api.get ("/workspaces/" ++ workspaceId ++ "/tickets") [("status", "OPEN")])] := by
  simp only [WorkspaceTickets.fetchTickets]
  split <;> simp [api.request_sent]

/-- The request of `handleResolveSubmit`. -/
theorem handleResolveSubmit_sent (workspaceId : String) (net : Config → Outcome Unit)
    (b : Browser) (s : TicketsState) :
    (WorkspaceTickets.handleResolveSubmit workspaceId net b s).sent
      = match s.selectedTicket with
        | none => []
        | some ticket =>
          if s.resolveAnswer = "" then []
          else [api.interceptors.request.onFulfilled b.localStorage
            (api.post ("/workspaces/" ++ workspaceId ++ "/tickets/" ++ ticket.id ++ "/resolve")
              (.json [("answer", .str s.resolveAnswer),
                ("add_to_knowledge_base", .bool s.addToKb)]) [])] := by
  simp only [WorkspaceTickets.handleResolveSubmit]
  cases s.selectedTicket with
  | none => rfl
  | some ticket =>
    simp only []
    by_cases ha : s.resolveAnswer = ""
    · simp [ha, truthy, Step.skip]
    · have ht : truthy (some s.resolveAnswer) = true := by simp [truthy, ha]
      simp only [ht, Bool.not_true, Bool.false_eq_true, if_false, ha]
      split <;> simp [api.request_sent]

/-- The request of `fetchAnalytics`. -/
theorem fetchAnalytics_sent (workspaceId : String) (net : Config → Outcome Stats)
    (b : Browser) (s : AnalyticsState) :
    (WorkspaceAnalytics.fetchAnalytics workspaceId net b s).sent
      = [api.interceptors.request.onFulfilled b.localStorage
          (api.get ("/workspaces/" ++ workspaceId ++ "/analytics") [("period", s.period)])] := by
  simp only [WorkspaceAnalytics.fetchAnalytics]
  split <;> simp [api.request_sent]

/-- The period after `fetchAnalytics` is the period before. -/
theorem fetchAnalytics_period (workspaceId : String) (net : Config → Outcome Stats)
    (b : Browser) (s : AnalyticsState) :
    (WorkspaceAnalytics.fetchAnalytics workspaceId net b s).state.period = s.period := by
  simp only [WorkspaceAnalytics.fetchAnalytics]
  split <;> rfl

theorem PeriodOption.value_mem (option : PeriodOption) :
    option.value ∈ ["24h", "7d", "30d"] := by
  cases option <;> simp [PeriodOption.value]

/-- The period after a selection is the value of the chosen option. -/
theorem analytics_onChange_period (workspaceId : String) (option : PeriodOption)
    (net : Config → Outcome Stats) (b : Browser) (s : AnalyticsState) :
    (WorkspaceAnalytics.onChange workspaceId option net b s).state.period = option.value := by
  simp only [WorkspaceAnalytics.onChange]
  split
  · rfl
  · rw [fetchAnalytics_period]

/-- A selection sends at most the request for the chosen period. -/
theorem analytics_onChange_sent (workspaceId : String) (option : PeriodOption)
    (net : Config → Outcome Stats) (b : Browser) (s : AnalyticsState) (c : Config)
    (h : c ∈ (WorkspaceAnalytics.onChange workspaceId option net b s).sent) :
    c.line = (Method.GET, "/workspaces/" ++ workspaceId ++ "/analytics", Body.empty,
      [("period", option.value)]) := by
  simp only [WorkspaceAnalytics.onChange] at h
  split at h
  · simp [Step.skip] at h
  · rw [fetchAnalytics_sent] at h
    rw [List.mem_singleton.1 h, request_onFulfilled_line]
    rfl

/-- Every request of a run of selections is the analytics request of the route,
for one of the three periods. -/
theorem analytics_run_sent (workspaceId : String)
    (events : List (PeriodOption × (Config → Outcome Stats))) :
    ∀ (b : Browser) (s : AnalyticsState) (c : Config),
      c ∈ (WorkspaceAnalytics.run workspaceId events b s).sent →
      ∃ p, p ∈ ["24h", "7d", "30d"] ∧
        c.line = (Method.GET, "/workspaces/" ++ workspaceId ++ "/analytics", Body.empty,
          [("period", p)]) := by
  induction events with
  | nil =>
    intro b s c h
    simp [WorkspaceAnalytics.run, Step.skip] at h
  | cons ev rest ih =>
    intro b s c h
    obtain ⟨option, net⟩ := ev
    simp only [WorkspaceAnalytics.run, List.mem_append] at h
    rcases h with h | h
    · exact ⟨option.value, option.value_mem, analytics_onChange_sent _ _ _ _ _ _ h⟩
    · exact ih _ _ _ h

/-- Every request built by the knowledge, tickets and analytics tabs in a render
with route parameter `workspaceId` has the method, path, body and query parameters
of the HTTP contract for that workspace: `GET /workspaces/{id}/knowledge`;
`POST .../knowledge/upload` with a form holding the selected file under `file` and
the multipart content type; `POST .../knowledge/qa` with `{question, answer}`;
`DELETE .../knowledge/{sourceId}`; `GET .../tickets` with `status=OPEN` as the only
parameter; `POST .../tickets/{ticketId}/resolve`; `GET .../analytics` with a period
that is one of `24h`, `7d`, `30d`, the first one being `7d`.  The delayed re-fetches
keep the route parameter of the render that scheduled them. -/
theorem workspace_requests_follow_contract (workspaceId : String) (b : Browser) :
    (∀ net s, (WorkspaceKnowledge.fetchKnowledgeSources workspaceId net b s).sent.map Config.line
      = [(.GET, "/workspaces/" ++ workspaceId ++ "/knowledge", .empty, [])]) ∧
    (∀ now net s c, c ∈ (WorkspaceKnowledge.handleFileUpload workspaceId now net b s).sent →
      ∃ file, s.selectedFile = some file ∧
        c.line = (.POST, "/workspaces/" ++ workspaceId ++ "/knowledge/upload",
          .formData [("file", file)], []) ∧
        Entries.get c.headers "Content-Type" = some "multipart/form-data") ∧
    (∀ net s, (WorkspaceKnowledge.handleQASubmit workspaceId net b s).sent.map Config.line
      = [(.POST, "/workspaces/" ++ workspaceId ++ "/knowledge/qa",
          .json [("question", .str s.qaQuestion), ("answer", .str s.qaAnswer)], [])]) ∧
    (∀ confirm net sourceId s c,
      c ∈ (WorkspaceKnowledge.handleDeleteSource workspaceId confirm net sourceId b s).sent →
      c.line = (.DELETE, "/workspaces/" ++ workspaceId ++ "/knowledge/" ++ sourceId, .empty, [])) ∧
    (∀ now net s t, t ∈ (WorkspaceKnowledge.handleFileUpload workspaceId now net b s).timers ∨
        t ∈ (WorkspaceKnowledge.handleQASubmit workspaceId net b s).timers →
      ∀ net2 b2 s2, (Callback.run net2 b2 s2 t.callback).sent.map Config.line
        = [(.GET, "/workspaces/" ++ workspaceId ++ "/knowledge", .empty, [])]) ∧
    (∀ net s, (WorkspaceTickets.fetchTickets workspaceId net b s).sent.map Config.line
      = [(.GET, "/workspaces/" ++ workspaceId ++ "/tickets", .empty, [("status", "OPEN")])]) ∧
    (∀ net s c, c ∈ (WorkspaceTickets.handleResolveSubmit workspaceId net b s).sent →
      ∃ ticket, s.selectedTicket = some ticket ∧
        c.line = (.POST, "/workspaces/" ++ workspaceId ++ "/tickets/" ++ ticket.id ++ "/resolve",
          .json [("answer", .str s.resolveAnswer), ("add_to_knowledge_base", .bool s.addToKb)],
          [])) ∧
    (∀ mountNet events c, c ∈ (WorkspaceAnalytics.session workspaceId mountNet events b).sent →
      ∃ p, p ∈ ["24h", "7d", "30d"] ∧
        c.line = (.GET, "/workspaces/" ++ workspaceId ++ "/analytics", .empty, [("period", p)])) ∧
    (∀ mountNet events,
      ((WorkspaceAnalytics.session workspaceId mountNet events b).sent.map Config.line).head?
        = some (.GET, "/workspaces/" ++ workspaceId ++ "/analytics", .empty, [("period", "7d")])) := by
  refine ⟨?_, ?_, ?_, ?_, ?_, ?_, ?_, ?_, ?_⟩
  · intro net s
    rw [fetchKnowledgeSources_sent, List.map_singleton, request_onFulfilled_line]
    rfl
  · intro now net s c hc
    rw [handleFileUpload_sent] at hc
    cases hf : s.selectedFile with
    | none => simp [hf] at hc
    | some file =>
      simp only [hf, List.mem_singleton] at hc
      refine ⟨file, rfl, ?_, ?_⟩
      · rw [hc, request_onFulfilled_line]
        rfl
      · rw [hc, request_onFulfilled_header _ _ _ (by decide)]
        rfl
  · intro net s
    rw [handleQASubmit_sent, List.map_singleton, request_onFulfilled_line]
    rfl
  · intro confirm net sourceId s c hc
    rw [handleDeleteSource_sent] at hc
    cases confirm with
    | false => simp at hc
    | true =>
      simp only [if_true, List.mem_singleton] at hc
      rw [hc, request_onFulfilled_line]
      rfl
  · intro now net s t ht net2 b2 s2
    have hcb : t.callback = .fetchKnowledgeSources workspaceId := by
      rcases ht with ht | ht
      · exact handleFileUpload_timers _ _ _ _ _ _ ht
      · exact handleQASubmit_timers _ _ _ _ _ ht
    rw [hcb]
    simp only [Callback.run]
    rw [fetchKnowledgeSources_sent, List.map_singleton, request_onFulfilled_line]
    rfl
  · intro net s
    rw [fetchTickets_sent, List.map_singleton, request_onFulfilled_line]
    rfl
  · intro net s c hc
    rw [handleResolveSubmit_sent] at hc
    cases hf : s.selectedTicket with
    | none => simp [hf] at hc
    | some ticket =>
      simp only [hf] at hc
      by_cases ha : s.resolveAnswer = ""
      · simp [ha] at hc
      · simp only [ha, if_false, List.mem_singleton] at hc
        refine ⟨ticket, rfl, ?_⟩
        rw [hc, request_onFulfilled_line]
        rfl
  · intro mountNet events c hc
    simp only [WorkspaceAnalytics.session, List.mem_append] at hc
    rcases hc with hc | hc
    · rw [fetchAnalytics_sent] at hc
      refine ⟨"7d", by simp, ?_⟩
      rw [List.mem_singleton.1 hc, request_onFulfilled_line]
      rfl
    · exact analytics_run_sent _ _ _ _ _ hc
  · intro mountNet events
    simp only [WorkspaceAnalytics.session]
    rw [fetchAnalytics_sent]
    simp only [List.singleton_append, List.map_cons, List.head?_cons]
    rw [request_onFulfilled_line]
    rfl

/-- The analytics tab at workspace `w1`: a signed-in user opens it and selects
`30d`; two requests leave, for `7d` and then for `30d`, both to `w1`. -/
theorem workspace_requests_follow_contract_witness :
    (WorkspaceAnalytics.session "w1" (fun _ => .error ⟨"Network Error", none⟩)
      [(.month, fun _ => .error ⟨"Network Error", none⟩)]
      ⟨⟨[("access_token", "abc")]⟩, "/"⟩).sent.map Config.line
      = [(.GET, "/workspaces/w1/analytics", .empty, [("period", "7d")]),
         (.GET, "/workspaces/w1/analytics", .empty, [("period", "30d")])] ∧
    ((WorkspaceAnalytics.session "w1" (fun _ => .error ⟨"Network Error", none⟩)
      [(.month, fun _ => .error ⟨"Network Error", none⟩)]
      ⟨⟨[("access_token", "abc")]⟩, "/"⟩).sent.map Config.line).head?
      = some (.GET, "/workspaces/" ++ "w1" ++ "/analytics", .empty, [("period", "7d")]) :=
  ⟨by decide, (workspace_requests_follow_contract "w1" ⟨⟨[("access_token", "abc")]⟩, "/"⟩).2.2.2.2.2.2.2.2
    (fun _ => .error ⟨"Network Error", none⟩)
    [(.month, fun _ => .error ⟨"Network Error", none⟩)]⟩

/-! ## The chat -/

/-- The method `trim` returns the empty string exactly on blank strings. -/
theorem trim_eq_empty_iff (s : String) : trim s = "" ↔ isBlank s = true := by
  have hdata : trim s = "" ↔
      ((s.data.dropWhile isWhiteSpace).reverse.dropWhile isWhiteSpace).reverse = [] := by
    constructor
    · intro h
      exact congrArg String.data h
    · intro h
      show String.mk _ = String.mk []
      rw [h]
  rw [hdata, List.reverse_eq_nil_iff, List.dropWhile_eq_nil_iff, isBlank, List.all_eq_true]
  constructor
  · intro h
    have hnil : s.data.dropWhile isWhiteSpace = [] := by
      by_contra hne
      have hhead := List.head_dropWhile_not isWhiteSpace s.data hne
      have hmem : (s.data.dropWhile isWhiteSpace).head hne
          ∈ (s.data.dropWhile isWhiteSpace).reverse :=
        List.mem_reverse.2 (List.head_mem hne)
      rw [h _ hmem] at hhead
      exact Bool.noConfusion hhead
    exact List.dropWhile_eq_nil_iff.1 hnil
  · intro h
    have hnil : s.data.dropWhile isWhiteSpace = [] := List.dropWhile_eq_nil_iff.2 h
    rw [hnil]
    intro x hx
    simp at hx

/-- The guard `!input.trim()` holds exactly on blank input. -/
theorem not_truthy_trim_iff (s : String) :
    (!truthy (some (trim s))) = true ↔ isBlank s = true := by
  rw [← trim_eq_empty_iff]
  by_cases h : trim s = "" <;> simp [truthy, h]

/-- The chat's `handleSubmit` on blank input. -/
theorem handleSubmit_of_blank (workspaceId : String) (net : Config → Outcome QueryData)
    (b : Browser) (s : ChatState) (h : isBlank s.input = true) :
    WorkspaceChat.handleSubmit workspaceId net b s = Step.skip b s := by
  simp only [WorkspaceChat.handleSubmit, (not_truthy_trim_iff s.input).2 h, if_true]

/-- The request of the chat's `handleSubmit`. -/
theorem handleSubmit_sent (workspaceId : String) (net : Config → Outcome QueryData)
    (b : Browser) (s : ChatState) :
    (WorkspaceChat.handleSubmit workspaceId net b s).sent
      = if isBlank s.input then []
        else [api.interceptors.request.onFulfilled b.localStorage
          (api.post ("/workspaces/" ++ workspaceId ++ "/query")
            (.json [("question", .str s.input), ("session_id", .str s.sessionId)]) [])] := by
  cases hb : isBlank s.input with
  | true =>
    rw [handleSubmit_of_blank workspaceId net b s hb]
    rfl
  | false =>
    have hg : (!truthy (some (trim s.input))) = false := by
      cases hx : (!truthy (some (trim s.input))) with
      | false => rfl
      | true =>
        rw [(not_truthy_trim_iff s.input).1 hx] at hb
        exact Bool.noConfusion hb
    simp only [WorkspaceChat.handleSubmit, hg, Bool.false_eq_true, if_false]
    split <;> simp [api.request_sent]

/-- The chat's `handleSubmit` never writes the session id. -/
theorem handleSubmit_sessionId (workspaceId : String) (net : Config → Outcome QueryData)
    (b : Browser) (s : ChatState) :
    (WorkspaceChat.handleSubmit workspaceId net b s).state.sessionId = s.sessionId := by
  simp only [WorkspaceChat.handleSubmit]
  split
  · rfl
  · split <;> rfl

/-- Every request of a run of the chat carries the session id of the state the run
starts from, and the run ends with that session id. -/
theorem chat_run_sessionId (workspaceId : String) (events : List (ChatEvent × String)) :
    ∀ (b : Browser) (s : ChatState),
      (WorkspaceChat.run workspaceId events b s).state.sessionId = s.sessionId ∧
      ∀ c, c ∈ (WorkspaceChat.run workspaceId events b s).sent →
        ∃ question, c.line = (Method.POST, "/workspaces/" ++ workspaceId ++ "/query",
          Body.json [("question", .str question), ("session_id", .str s.sessionId)], []) := by
  induction events with
  | nil =>
    intro b s
    exact ⟨rfl, fun c hc => by simp [WorkspaceChat.run, Step.skip] at hc⟩
  | cons ev rest ih =>
    intro b s
    obtain ⟨ev, uuidv4⟩ := ev
    have hkeep : (WorkspaceChat.render uuidv4
        (some (WorkspaceChat.handle workspaceId b s ev).state)).sessionId = s.sessionId := by
      cases ev with
      | change value => rfl
      | submit net => exact handleSubmit_sessionId workspaceId net b s
    have hrest := ih (WorkspaceChat.handle workspaceId b s ev).browser
      (WorkspaceChat.render uuidv4 (some (WorkspaceChat.handle workspaceId b s ev).state))
    rw [hkeep] at hrest
    constructor
    · exact hrest.1
    · intro c hc
      simp only [WorkspaceChat.run, List.mem_append] at hc
      rcases hc with hc | hc
      · cases ev with
        | change value => simp [WorkspaceChat.handle, Step.skip] at hc
        | submit net =>
          simp only [WorkspaceChat.handle] at hc
          rw [handleSubmit_sent] at hc
          cases hb : isBlank s.input with
          | true => simp [hb] at hc
          | false =>
            simp only [hb, Bool.false_eq_true, if_false, List.mem_singleton] at hc
            refine ⟨s.input, ?_⟩
            rw [hc, request_onFulfilled_line]
            rfl
      · exact hrest.2 c hc

/-- C8: for every input that is empty or holds white space only, the chat's
`handleSubmit` sends no request and leaves the state (messages, input, loading,
error) and the browser as they are; the submit button is disabled on such input. -/
theorem blank_question_not_sent (workspaceId : String) (net : Config → Outcome QueryData)
    (b : Browser) (s : ChatState) (h : isBlank s.input = true) :
    (WorkspaceChat.handleSubmit workspaceId net b s).sent = [] ∧
    (WorkspaceChat.handleSubmit workspaceId net b s).state = s ∧
    (WorkspaceChat.handleSubmit workspaceId net b s).browser = b ∧
    WorkspaceChat.submitDisabled s = true := by
  rw [handleSubmit_of_blank workspaceId net b s h]
  refine ⟨rfl, rfl, rfl, ?_⟩
  simp only [WorkspaceChat.submitDisabled, (not_truthy_trim_iff s.input).2 h, Bool.or_true]

/-- C8 at an input of a space, a tab and a no-break space, with one earlier
message: nothing is sent and the state stays. -/
theorem blank_question_not_sent_witness :
    isBlank " \t\u00A0" = true ∧
    (WorkspaceChat.handleSubmit "w1" (fun _ => .ok ⟨200, ⟨"a", none, none⟩⟩) ⟨⟨[]⟩, "/"⟩
      ⟨[⟨"user", "hi", none, none, false⟩], " \t\u00A0", false, none, "sid"⟩).sent = [] ∧
    (WorkspaceChat.handleSubmit "w1" (fun _ => .ok ⟨200, ⟨"a", none, none⟩⟩) ⟨⟨[]⟩, "/"⟩
      ⟨[⟨"user", "hi", none, none, false⟩], " \t\u00A0", false, none, "sid"⟩).state
      = ⟨[⟨"user", "hi", none, none, false⟩], " \t\u00A0", false, none, "sid"⟩ := by
  have h := blank_question_not_sent "w1" (fun _ => .ok ⟨200, ⟨"a", none, none⟩⟩) ⟨⟨[]⟩, "/"⟩
    ⟨[⟨"user", "hi", none, none, false⟩], " \t\u00A0", false, none, "sid"⟩ (by decide)
  exact ⟨by decide, h.1, h.2.1⟩

/-- C9: for every input that is not blank, the chat's `handleSubmit` sends exactly
one request: a `POST` to `/workspaces/{workspaceId}/query` whose body is exactly
`{question, session_id}`, the question being the input as typed and the session id
the one of the chat. -/
theorem nonblank_question_sent_once (workspaceId : String) (net : Config → Outcome QueryData)
    (b : Browser) (s : ChatState) (h : isBlank s.input = false) :
    (WorkspaceChat.handleSubmit workspaceId net b s).sent.map Config.line
      = [(.POST, "/workspaces/" ++ workspaceId ++ "/query",
          .json [("question", .str s.input), ("session_id", .str s.sessionId)], [])] := by
  rw [handleSubmit_sent, h]
  simp only [Bool.false_eq_true, if_false, List.map_singleton]
  rw [request_onFulfilled_line]
  rfl

/-- C9 at the input ` leave days? ` (with its surrounding spaces): one request,
the question untrimmed. -/
theorem nonblank_question_sent_once_witness :
    isBlank " leave days? " = false ∧
    (WorkspaceChat.handleSubmit "w1" (fun _ => .error ⟨"Network Error", none⟩) ⟨⟨[]⟩, "/"⟩
      ⟨[], " leave days? ", false, none, "sid"⟩).sent.map Config.line
      = [(.POST, "/workspaces/" ++ "w1" ++ "/query",
          .json [("question", .str " leave days? "), ("session_id", .str "sid")], [])] :=
  ⟨by decide, nonblank_question_sent_once "w1" (fun _ => .error ⟨"Network Error", none⟩)
    ⟨⟨[]⟩, "/"⟩ ⟨[], " leave days? ", false, none, "sid"⟩ (by decide)⟩

/-- C10: the session id is the value `uuidv4()` returned in the first render; for
every list of events (typing, submits that succeed or fail) and whatever
`uuidv4()` returns in later renders, the chat ends with that session id and every
request it sent is a query of the route carrying that session id. -/
theorem chat_session_id_constant (workspaceId uuid : String)
    (events : List (ChatEvent × String)) (b : Browser) :
    (WorkspaceChat.render uuid none).sessionId = uuid ∧
    (WorkspaceChat.run workspaceId events b (WorkspaceChat.render uuid none)).state.sessionId
      = uuid ∧
    ∀ c, c ∈ (WorkspaceChat.run workspaceId events b (WorkspaceChat.render uuid none)).sent →
      ∃ question, c.line = (Method.POST, "/workspaces/" ++ workspaceId ++ "/query",
        Body.json [("question", .str question), ("session_id", .str uuid)], []) :=
  ⟨rfl, chat_run_sessionId workspaceId events b (WorkspaceChat.render uuid none)⟩

/-- C10 at two submits, the first answered, the second failing, with other uuids
drawn in the later renders: both requests carry the first uuid. -/
theorem chat_session_id_constant_witness :
    (WorkspaceChat.run "w1"
      [(.change "one", "u2"), (.submit (fun _ => .ok ⟨200, ⟨"a", none, none⟩⟩), "u3"),
       (.change "two", "u4"), (.submit (fun _ => .error ⟨"Network Error", none⟩), "u5")]
      ⟨⟨[]⟩, "/"⟩ (WorkspaceChat.render "u1" none)).sent.map Config.line
      = [(.POST, "/workspaces/w1/query",
          .json [("question", .str "one"), ("session_id", .str "u1")], []),
         (.POST, "/workspaces/w1/query",
          .json [("question", .str "two"), ("session_id", .str "u1")], [])] ∧
    (WorkspaceChat.run "w1"
      [(.change "one", "u2"), (.submit (fun _ => .ok ⟨200, ⟨"a", none, none⟩⟩), "u3"),
       (.change "two", "u4"), (.submit (fun _ => .error ⟨"Network Error", none⟩), "u5")]
      ⟨⟨[]⟩, "/"⟩ (WorkspaceChat.render "u1" none)).state.sessionId = "u1" :=
  ⟨by decide, (chat_session_id_constant "w1" "u1"
      [(.change "one", "u2"), (.submit (fun _ => .ok ⟨200, ⟨"a", none, none⟩⟩), "u3"),
       (.change "two", "u4"), (.submit (fun _ => .error ⟨"Network Error", none⟩), "u5")]
      ⟨⟨[]⟩, "/"⟩).2.1⟩

/-! ## The chat's message list -/

/-- The guard of the chat's `handleSubmit` is false on input that is not blank. -/
theorem guard_of_not_blank (input : String) (h : isBlank input = false) :
    (!truthy (some (trim input))) = false := by
  cases hx : (!truthy (some (trim input))) with
  | false => rfl
  | true =>
    rw [(not_truthy_trim_iff input).1 hx] at h
    exact Bool.noConfusion h

/-- The result of the chat's `handleSubmit` when the query succeeds. -/
theorem handleSubmit_of_ok (workspaceId : String) (net : Config → Outcome QueryData)
    (b : Browser) (s : ChatState) (response : Response QueryData)
    (hb : isBlank s.input = false)
    (h : net (queryRequest b.localStorage workspaceId s) = .ok response) :
    WorkspaceChat.handleSubmit workspaceId net b s
      = { browser := b,
          state := { s with
            messages := (s.messages ++ [⟨"user", s.input, none, none, false⟩]) ++
              [⟨"ai", response.data.answer, response.data.sources, response.data.ticket_id,
                false⟩],
            input := "", loading := false, error := none },
          sent := [queryRequest b.localStorage workspaceId s], timers := [], alerts := [] } := by
  have hr := api.request_ok b _ net response h
  have hs := api.request_sent b
    (api.post ("/workspaces/" ++ workspaceId ++ "/query")
      (.json [("question", .str s.input), ("session_id", .str s.sessionId)]) []) net
  simp only [WorkspaceChat.handleSubmit, guard_of_not_blank s.input hb, Bool.false_eq_true,
    if_false, hr.1, hr.2, hs, queryRequest]

/-- The chat's `handleSubmit` keeps the messages it found as a prefix. -/
theorem handleSubmit_messages_prefix (workspaceId : String) (net : Config → Outcome QueryData)
    (b : Browser) (s : ChatState) :
    s.messages <+: (WorkspaceChat.handleSubmit workspaceId net b s).state.messages := by
  simp only [WorkspaceChat.handleSubmit]
  split
  · exact List.prefix_refl _
  · split
    · exact ⟨_, (List.append_assoc _ _ _).symm⟩
    · exact ⟨_, (List.append_assoc _ _ _).symm⟩

/-- Every handler of the chat keeps the messages it found as a prefix. -/
theorem chat_handle_messages_prefix (workspaceId : String) (b : Browser) (s : ChatState)
    (ev : ChatEvent) :
    s.messages <+: (WorkspaceChat.handle workspaceId b s ev).state.messages := by
  cases ev with
  | change value => exact List.prefix_refl _
  | submit net => exact handleSubmit_messages_prefix workspaceId net b s

/-- A run of the chat keeps the messages it started with as a prefix. -/
theorem chat_run_messages_prefix (workspaceId : String) (events : List (ChatEvent × String)) :
    ∀ (b : Browser) (s : ChatState),
      s.messages <+: (WorkspaceChat.run workspaceId events b s).state.messages := by
  induction events with
  | nil =>
    intro b s
    exact List.prefix_refl _
  | cons ev rest ih =>
    intro b s
    obtain ⟨ev, uuidv4⟩ := ev
    have h1 := chat_handle_messages_prefix workspaceId b s ev
    have h2 := ih (WorkspaceChat.handle workspaceId b s ev).browser
      (WorkspaceChat.render uuidv4 (some (WorkspaceChat.handle workspaceId b s ev).state))
    exact List.IsPrefix.trans h1 h2

/-- C11: for every submit of non-blank input whose request succeeds, the message
list afterwards is the list before followed by exactly two messages, the user's
message with the input as text and then the AI message with the answer, the
sources and the ticket id of the response; every handler of the chat, and so
every run of events, keeps the earlier messages unchanged as a prefix of the
list. -/
theorem chat_messages_append_only (workspaceId : String) (b : Browser) (s : ChatState) :
    (∀ net response, isBlank s.input = false →
      net (queryRequest b.localStorage workspaceId s) = .ok response →
      (WorkspaceChat.handleSubmit workspaceId net b s).state.messages
        = s.messages ++
          [⟨"user", s.input, none, none, false⟩,
           ⟨"ai", response.data.answer, response.data.sources, response.data.ticket_id,
             false⟩]) ∧
    (∀ ev, s.messages <+: (WorkspaceChat.handle workspaceId b s ev).state.messages) ∧
    (∀ events, s.messages <+: (WorkspaceChat.run workspaceId events b s).state.messages) := by
  refine ⟨?_, chat_handle_messages_prefix workspaceId b s,
    fun events => chat_run_messages_prefix workspaceId events b s⟩
  intro net response hb h
  rw [handleSubmit_of_ok workspaceId net b s response hb h]
  exact List.append_assoc _ _ _

/-- C11 at a chat holding one exchange: a further question that is answered with
a ticket adds two messages after the two that were there. -/
theorem chat_messages_append_only_witness :
    (WorkspaceChat.handleSubmit "w1" (fun _ => .ok ⟨200, ⟨"no idea", some [], some "t-1"⟩⟩)
      ⟨⟨[]⟩, "/"⟩
      ⟨[⟨"user", "hi", none, none, false⟩, ⟨"ai", "hello", some [], none, false⟩], "why?", false,
        none, "sid"⟩).state.messages
      = [⟨"user", "hi", none, none, false⟩, ⟨"ai", "hello", some [], none, false⟩] ++
        [⟨"user", "why?", none, none, false⟩, ⟨"ai", "no idea", some [], some "t-1", false⟩] :=
  (chat_messages_append_only "w1" ⟨⟨[]⟩, "/"⟩
    ⟨[⟨"user", "hi", none, none, false⟩, ⟨"ai", "hello", some [], none, false⟩], "why?", false,
      none, "sid"⟩).1 (fun _ => .ok ⟨200, ⟨"no idea", some [], some "t-1"⟩⟩)
    ⟨200, ⟨"no idea", some [], some "t-1"⟩⟩ (by decide) rfl

/-! ## The sources of an answer -/

/-- The page shown for a source whose `page` is absent or falsy. -/
theorem pageOrNA_of_falsy (source : JsObject)
    (h : JsObject.get source "page" = none ∨
      ∃ v, JsObject.get source "page" = some v ∧ v.truthy = false) :
    WorkspaceChat.pageOrNA source = some (.str "N/A") := by
  rcases h with h | ⟨v, h, hv⟩
  · simp [WorkspaceChat.pageOrNA, h]
  · simp [WorkspaceChat.pageOrNA, h, hv]

/-- The page shown for a source whose `page` is truthy. -/
theorem pageOrNA_of_truthy (source : JsObject) (v : JsValue)
    (h : JsObject.get source "page" = some v) (hv : v.truthy = true) :
    WorkspaceChat.pageOrNA source = some v := by
  simp [WorkspaceChat.pageOrNA, h, hv]

/-- C12, the claim as stated fails: a source in the shape the spec gives,
`source_name`, `position` (the number 3), `text_excerpt`, is rendered with an empty
name, the page `N/A` and an empty excerpt: none of its three values is shown. -/
theorem spec_shaped_source_not_shown :
    WorkspaceChat.sourcesBlock (fun _ => "3")
      ⟨"ai", "20 days", some [[("source_name", .str "policy.pdf"),
        ("position", .num ⟨0x4008000000000000⟩),
        ("text_excerpt", .str "leave is 20 days")]], none, false⟩
      = some [⟨" (стр. N/A)", "\"......\""⟩] := by
  decide

/-- C12, amended: for every AI message with a non-empty sources list one entry is
rendered per source, in order.  The entry shows what React prints for the source's
`name`, then the page, then what React prints for its `text_chunk`; the page is
`N/A` when `page` is absent or falsy (`null`, `false`, a zero, `NaN`, the empty
string) and what React prints for `page` otherwise, a number being printed by the
number-to-string conversion of JavaScript.  No other property of the source is
read: two sources with the same `name`, `page` and `text_chunk` are rendered
alike. -/
theorem chat_sources_rendered (numberToString : JsNumber → String) (msg : Message)
    (sources : List JsObject)
    (hai : msg.sender = "ai") (hs : msg.sources = some sources) (hne : sources ≠ []) :
    WorkspaceChat.sourcesBlock numberToString msg
      = some (sources.map (WorkspaceChat.renderSource numberToString)) ∧
    (∀ source, source ∈ sources →
      (JsObject.get source "page" = none ∨
        ∃ v, JsObject.get source "page" = some v ∧ v.truthy = false) →
      WorkspaceChat.renderSource numberToString source
        = ⟨renderChild numberToString (JsObject.get source "name") ++ " (стр. " ++ "N/A" ++ ")",
           "\"..." ++ renderChild numberToString (JsObject.get source "text_chunk") ++
             "...\""⟩) ∧
    (∀ source v, source ∈ sources → JsObject.get source "page" = some v → v.truthy = true →
      WorkspaceChat.renderSource numberToString source
        = ⟨renderChild numberToString (JsObject.get source "name") ++ " (стр. " ++
             renderChild numberToString (some v) ++ ")",
           "\"..." ++ renderChild numberToString (JsObject.get source "text_chunk") ++
             "...\""⟩) ∧
    (∀ source name page chunk, source ∈ sources →
      JsObject.get source "name" = some (.str name) →
      JsObject.get source "page" = some (.num page) → page.truthy = true →
      JsObject.get source "text_chunk" = some (.str chunk) →
      WorkspaceChat.renderSource numberToString source
        = ⟨name ++ " (стр. " ++ numberToString page ++ ")", "\"..." ++ chunk ++ "...\""⟩) ∧
    (JsValue.truthy .null = false ∧ JsValue.truthy (.bool false) = false ∧
      JsValue.truthy (.str "") = false ∧ JsValue.truthy (.num ⟨0⟩) = false ∧
      JsValue.truthy (.num ⟨2 ^ 63⟩) = false ∧
      JsValue.truthy (.num ⟨0x7FF8000000000000⟩) = false ∧
      JsValue.truthy (.num ⟨0x7FF0000000000000⟩) = true ∧
      JsValue.truthy (.num ⟨0x4008000000000000⟩) = true ∧
      JsValue.truthy (.bool true) = true ∧ JsValue.truthy (.str "0") = true) ∧
    (renderChild numberToString none = "" ∧ renderChild numberToString (some .null) = "" ∧
      (∀ flag, renderChild numberToString (some (.bool flag)) = "") ∧
      (∀ text, renderChild numberToString (some (.str text)) = text) ∧
      (∀ n, renderChild numberToString (some (.num n)) = numberToString n)) ∧
    (∀ first second : JsObject,
      JsObject.get first "name" = JsObject.get second "name" →
      JsObject.get first "page" = JsObject.get second "page" →
      JsObject.get first "text_chunk" = JsObject.get second "text_chunk" →
      WorkspaceChat.renderSource numberToString first
        = WorkspaceChat.renderSource numberToString second) := by
  refine ⟨?_, ?_, ?_, ?_, ?_, ?_, ?_⟩
  · have hlen : sources.length > 0 := List.length_pos.2 hne
    simp [WorkspaceChat.sourcesBlock, hs, hai, hlen]
  · intro source _ hp
    simp only [WorkspaceChat.renderSource, pageOrNA_of_falsy source hp, renderChild]
  · intro source v _ hp hv
    simp only [WorkspaceChat.renderSource, pageOrNA_of_truthy source v hp hv]
  · intro source name page chunk _ hn hp hpt hc
    have hv : (JsValue.num page).truthy = true := hpt
    simp only [WorkspaceChat.renderSource, pageOrNA_of_truthy source _ hp hv, hn, hc,
      renderChild]
  · decide
  · exact ⟨rfl, rfl, fun _ => rfl, fun _ => rfl, fun _ => rfl⟩
  · intro first second hn hp hc
    simp only [WorkspaceChat.renderSource, WorkspaceChat.pageOrNA, hn, hp, hc]

/-- C12, amended, at two sources with `name`, `page` and `text_chunk`: the first
has page 3, the second page 0, so the second is shown with `N/A`. -/
theorem chat_sources_rendered_witness :
    WorkspaceChat.sourcesBlock (fun _ => "3")
      ⟨"ai", "20 days", some [[("name", .str "policy.pdf"), ("page", .num ⟨0x4008000000000000⟩),
          ("text_chunk", .str "leave is 20 days")],
        [("name", .str "faq"), ("page", .num ⟨0⟩), ("text_chunk", .str "yes")]], none, false⟩
      = some [⟨"policy.pdf (стр. 3)", "\"...leave is 20 days...\""⟩,
              ⟨"faq (стр. N/A)", "\"...yes...\""⟩] :=
  (chat_sources_rendered (fun _ => "3")
    ⟨"ai", "20 days", some [[("name", .str "policy.pdf"), ("page", .num ⟨0x4008000000000000⟩),
        ("text_chunk", .str "leave is 20 days")],
      [("name", .str "faq"), ("page", .num ⟨0⟩), ("text_chunk", .str "yes")]], none, false⟩
    [[("name", .str "policy.pdf"), ("page", .num ⟨0x4008000000000000⟩),
        ("text_chunk", .str "leave is 20 days")],
      [("name", .str "faq"), ("page", .num ⟨0⟩), ("text_chunk", .str "yes")]]
    rfl rfl (by decide)).1.trans (by decide)

/-! ## Resolving a ticket -/

/-- The handler `handleResolveSubmit` without a selected ticket or without an
answer. -/
theorem handleResolveSubmit_of_nothing (workspaceId : String) (net : Config → Outcome Unit)
    (b : Browser) (s : TicketsState) (h : s.selectedTicket = none ∨ s.resolveAnswer = "") :
    WorkspaceTickets.handleResolveSubmit workspaceId net b s = Step.skip b s := by
  simp only [WorkspaceTickets.handleResolveSubmit]
  cases ht : s.selectedTicket with
  | none => rfl
  | some ticket =>
    rcases h with h | h
    · rw [ht] at h
      exact Option.noConfusion h
    · simp [h, truthy]

/-- The result of `handleResolveSubmit` when the request succeeds. -/
theorem handleResolveSubmit_of_ok (workspaceId : String) (net : Config → Outcome Unit)
    (b : Browser) (s : TicketsState) (ticket : Ticket) (response : Response Unit)
    (ht : s.selectedTicket = some ticket) (ha : s.resolveAnswer ≠ "")
    (h : net (resolveRequest b.localStorage workspaceId ticket s) = .ok response) :
    WorkspaceTickets.handleResolveSubmit workspaceId net b s
      = { browser := b,
          state := { s with
            tickets := s.tickets.filter (fun t => t.id ≠ ticket.id),
            selectedTicket := none, isResolving := false, error := none },
          sent := [resolveRequest b.localStorage workspaceId ticket s], timers := [],
          alerts := [] } := by
  have hr := api.request_ok b _ net response h
  have hs := api.request_sent b
    (api.post ("/workspaces/" ++ workspaceId ++ "/tickets/" ++ ticket.id ++ "/resolve")
      (.json [("answer", .str s.resolveAnswer), ("add_to_knowledge_base", .bool s.addToKb)]) [])
    net
  have htr : truthy (some s.resolveAnswer) = true := by simp [truthy, ha]
  simp only [WorkspaceTickets.handleResolveSubmit, ht, htr, Bool.not_true, Bool.false_eq_true,
    if_false, hr.1, hr.2, hs, resolveRequest, WorkspaceTickets.closeResolveModal]

/-- The result of `handleResolveSubmit` when the request fails. -/
theorem handleResolveSubmit_of_error (workspaceId : String) (net : Config → Outcome Unit)
    (b : Browser) (s : TicketsState) (ticket : Ticket) (error : AxiosError)
    (ht : s.selectedTicket = some ticket) (ha : s.resolveAnswer ≠ "")
    (h : net (resolveRequest b.localStorage workspaceId ticket s) = .error error) :
    WorkspaceTickets.handleResolveSubmit workspaceId net b s
      = { browser := (@api.interceptors.response.onRejected Unit b error).1,
          state := { s with error := some "Ошибка при решении тикета.", isResolving := false },
          sent := [resolveRequest b.localStorage workspaceId ticket s], timers := [],
          alerts := [] } := by
  have hr := api.request_error b _ net error h
  have hs := api.request_sent b
    (api.post ("/workspaces/" ++ workspaceId ++ "/tickets/" ++ ticket.id ++ "/resolve")
      (.json [("answer", .str s.resolveAnswer), ("add_to_knowledge_base", .bool s.addToKb)]) [])
    net
  have htr : truthy (some s.resolveAnswer) = true := by simp [truthy, ha]
  simp only [WorkspaceTickets.handleResolveSubmit, ht, htr, Bool.not_true, Bool.false_eq_true,
    if_false, hr.1, hr.2, hs, resolveRequest]

/-- C13: `handleResolveSubmit` sends a request exactly when a ticket is selected and
the answer is not the empty string; otherwise it sends nothing and leaves the state
and the browser as they are; when it sends, it sends one request, a `POST` to
`/workspaces/{workspaceId}/tickets/{selectedTicket.id}/resolve` whose body holds the
typed answer as it is and the value of the checkbox. -/
theorem resolve_sends_iff_ticket_and_answer (workspaceId : String)
    (net : Config → Outcome Unit) (b : Browser) (s : TicketsState) :
    ((WorkspaceTickets.handleResolveSubmit workspaceId net b s).sent ≠ [] ↔
      (s.selectedTicket ≠ none ∧ s.resolveAnswer ≠ "")) ∧
    ((s.selectedTicket = none ∨ s.resolveAnswer = "") →
      (WorkspaceTickets.handleResolveSubmit workspaceId net b s).sent = [] ∧
      (WorkspaceTickets.handleResolveSubmit workspaceId net b s).state = s ∧
      (WorkspaceTickets.handleResolveSubmit workspaceId net b s).browser = b) ∧
    (∀ ticket, s.selectedTicket = some ticket → s.resolveAnswer ≠ "" →
      (WorkspaceTickets.handleResolveSubmit workspaceId net b s).sent.map Config.line
        = [(.POST, "/workspaces/" ++ workspaceId ++ "/tickets/" ++ ticket.id ++ "/resolve",
            .json [("answer", .str s.resolveAnswer), ("add_to_knowledge_base", .bool s.addToKb)],
            [])]) := by
  have hsent := handleResolveSubmit_sent workspaceId net b s
  refine ⟨?_, ?_, ?_⟩
  · rw [hsent]
    cases ht : s.selectedTicket with
    | none => simp
    | some ticket =>
      by_cases ha : s.resolveAnswer = ""
      · simp [ha]
      · simp [ha]
  · intro h
    rw [handleResolveSubmit_of_nothing workspaceId net b s h]
    exact ⟨rfl, rfl, rfl⟩
  · intro ticket ht ha
    rw [hsent]
    simp only [ht, ha, if_false, List.map_singleton]
    rw [request_onFulfilled_line]
    rfl

/-- C13 at a selected ticket `t-1` and the answer ` 14 дней ` with the box ticked:
one request, the answer with its spaces. -/
theorem resolve_sends_iff_ticket_and_answer_witness :
    (WorkspaceTickets.handleResolveSubmit "w1" (fun _ => .ok ⟨200, ()⟩) ⟨⟨[]⟩, "/"⟩
      ⟨[⟨"t-1", "q", "2024", "s1"⟩], false, none, some ⟨"t-1", "q", "2024", "s1"⟩, " 14 дней ",
        true, false⟩).sent.map Config.line
      = [(.POST, "/workspaces/" ++ "w1" ++ "/tickets/" ++ "t-1" ++ "/resolve",
          .json [("answer", .str " 14 дней "), ("add_to_knowledge_base", .bool true)], [])] :=
  (resolve_sends_iff_ticket_and_answer "w1" (fun _ => .ok ⟨200, ()⟩) ⟨⟨[]⟩, "/"⟩
    ⟨[⟨"t-1", "q", "2024", "s1"⟩], false, none, some ⟨"t-1", "q", "2024", "s1"⟩, " 14 дней ",
      true, false⟩).2.2 ⟨"t-1", "q", "2024", "s1"⟩ rfl (by decide)

/-- C14: when the resolve request succeeds, the tickets list afterwards holds
exactly the previous tickets whose id differs from the id of the resolved ticket,
in their previous order, `selectedTicket` is null (the modal is closed) and
`isResolving` is false. -/
theorem resolve_success_removes_ticket (workspaceId : String) (net : Config → Outcome Unit)
    (b : Browser) (s : TicketsState) (ticket : Ticket) (response : Response Unit)
    (ht : s.selectedTicket = some ticket) (ha : s.resolveAnswer ≠ "")
    (h : net (resolveRequest b.localStorage workspaceId ticket s) = .ok response) :
    (WorkspaceTickets.handleResolveSubmit workspaceId net b s).state.tickets
      = s.tickets.filter (fun t => t.id ≠ ticket.id) ∧
    (∀ t, t ∈ (WorkspaceTickets.handleResolveSubmit workspaceId net b s).state.tickets ↔
      t ∈ s.tickets ∧ t.id ≠ ticket.id) ∧
    (WorkspaceTickets.handleResolveSubmit workspaceId net b s).state.tickets.Sublist s.tickets ∧
    (WorkspaceTickets.handleResolveSubmit workspaceId net b s).state.selectedTicket = none ∧
    (WorkspaceTickets.handleResolveSubmit workspaceId net b s).state.isResolving = false ∧
    (WorkspaceTickets.view
      (WorkspaceTickets.handleResolveSubmit workspaceId net b s).state).modal = none := by
  rw [handleResolveSubmit_of_ok workspaceId net b s ticket response ht ha h]
  refine ⟨rfl, ?_, List.filter_sublist _, rfl, rfl, rfl⟩
  intro t
  simp [List.mem_filter]

/-- C14 at three open tickets, the second one resolved. -/
theorem resolve_success_removes_ticket_witness :
    (WorkspaceTickets.handleResolveSubmit "w1" (fun _ => .ok ⟨200, ()⟩) ⟨⟨[]⟩, "/"⟩
      ⟨[⟨"t-1", "a", "d", "s"⟩, ⟨"t-2", "b", "d", "s"⟩, ⟨"t-3", "c", "d", "s"⟩], false, none,
        some ⟨"t-2", "b", "d", "s"⟩, "yes", true, false⟩).state.tickets
      = [⟨"t-1", "a", "d", "s"⟩, ⟨"t-3", "c", "d", "s"⟩] :=
  (resolve_success_removes_ticket "w1" (fun _ => .ok ⟨200, ()⟩) ⟨⟨[]⟩, "/"⟩
    ⟨[⟨"t-1", "a", "d", "s"⟩, ⟨"t-2", "b", "d", "s"⟩, ⟨"t-3", "c", "d", "s"⟩], false, none,
      some ⟨"t-2", "b", "d", "s"⟩, "yes", true, false⟩ ⟨"t-2", "b", "d", "s"⟩ ⟨200, ()⟩
    rfl (by decide) rfl).1.trans (by decide)

/-- C15: when the resolve request fails, the tickets list, the selected ticket, the
typed answer and the add-to-knowledge-base flag are the same as before the submit;
the state afterwards is the state before with the error message set and
`isResolving` false. -/
theorem resolve_failure_keeps_tickets (workspaceId : String) (net : Config → Outcome Unit)
    (b : Browser) (s : TicketsState) (ticket : Ticket) (error : AxiosError)
    (ht : s.selectedTicket = some ticket) (ha : s.resolveAnswer ≠ "")
    (h : net (resolveRequest b.localStorage workspaceId ticket s) = .error error) :
    (WorkspaceTickets.handleResolveSubmit workspaceId net b s).state.tickets = s.tickets ∧
    (WorkspaceTickets.handleResolveSubmit workspaceId net b s).state.selectedTicket
      = s.selectedTicket ∧
    (WorkspaceTickets.handleResolveSubmit workspaceId net b s).state.resolveAnswer
      = s.resolveAnswer ∧
    (WorkspaceTickets.handleResolveSubmit workspaceId net b s).state.addToKb = s.addToKb ∧
    (WorkspaceTickets.handleResolveSubmit workspaceId net b s).state
      = { s with error := some "Ошибка при решении тикета.", isResolving := false } := by
  rw [handleResolveSubmit_of_error workspaceId net b s ticket error ht ha h]
  exact ⟨rfl, rfl, rfl, rfl, rfl⟩

/-- C15 at a resolve answered with 409: the ticket stays in the list and stays
selected. -/
theorem resolve_failure_keeps_tickets_witness :
    (WorkspaceTickets.handleResolveSubmit "w1"
      (fun _ => .error ⟨"Conflict", some ⟨409, none⟩⟩) ⟨⟨[]⟩, "/"⟩
      ⟨[⟨"t-1", "a", "d", "s"⟩], false, none, some ⟨"t-1", "a", "d", "s"⟩, "yes", true,
        false⟩).state
      = ⟨[⟨"t-1", "a", "d", "s"⟩], false, some "Ошибка при решении тикета.",
        some ⟨"t-1", "a", "d", "s"⟩, "yes", true, false⟩ :=
  (resolve_failure_keeps_tickets "w1" (fun _ => .error ⟨"Conflict", some ⟨409, none⟩⟩)
    ⟨⟨[]⟩, "/"⟩
    ⟨[⟨"t-1", "a", "d", "s"⟩], false, none, some ⟨"t-1", "a", "d", "s"⟩, "yes", true, false⟩
    ⟨"t-1", "a", "d", "s"⟩ ⟨"Conflict", some ⟨409, none⟩⟩ rfl (by decide) rfl).2.2.2.2

/-- C16, the code at a failed resolve: with ticket `t-1` selected and the request
answered with 409, the state afterwards holds the error message and the modal is
still open, but the modal's error paragraph is not rendered (`isResolving` is false
again) and neither is the page's error paragraph (a ticket is selected); the list
of tickets is hidden as well. -/
theorem resolve_failure_error_not_rendered :
    (WorkspaceTickets.handleResolveSubmit "w1"
      (fun _ => .error ⟨"Conflict", some ⟨409, none⟩⟩) ⟨⟨[]⟩, "/"⟩
      ⟨[⟨"t-1", "a", "d", "s"⟩], false, none, some ⟨"t-1", "a", "d", "s"⟩, "yes", true,
        false⟩).state.error = some "Ошибка при решении тикета." ∧
    WorkspaceTickets.view
      (WorkspaceTickets.handleResolveSubmit "w1"
        (fun _ => .error ⟨"Conflict", some ⟨409, none⟩⟩) ⟨⟨[]⟩, "/"⟩
        ⟨[⟨"t-1", "a", "d", "s"⟩], false, none, some ⟨"t-1", "a", "d", "s"⟩, "yes", true,
          false⟩).state
      = { loadingShown := false, pageError := none, list := none, emptyShown := false,
          modal := some { question := some "a", errorParagraph := none,
                          submitDisabled := false } } := by
  decide

/-- After every failed resolve the modal is open and shows no error paragraph, and
the page shows none either. -/
theorem resolve_failure_view (workspaceId : String) (net : Config → Outcome Unit)
    (b : Browser) (s : TicketsState) (ticket : Ticket) (error : AxiosError)
    (ht : s.selectedTicket = some ticket) (ha : s.resolveAnswer ≠ "")
    (h : net (resolveRequest b.localStorage workspaceId ticket s) = .error error) :
    (WorkspaceTickets.view
      (WorkspaceTickets.handleResolveSubmit workspaceId net b s).state).modal
      = some { question := some ticket.question, errorParagraph := none,
               submitDisabled := false } ∧
    (WorkspaceTickets.view
      (WorkspaceTickets.handleResolveSubmit workspaceId net b s).state).pageError = none := by
  rw [handleResolveSubmit_of_error workspaceId net b s ticket error ht ha h]
  simp [WorkspaceTickets.view, Modal, ht]

/-! ## Uploading a file -/

/-- The handler `handleFileUpload` without a selected file. -/
theorem handleFileUpload_of_none (workspaceId : String) (now : Nat)
    (net : Config → Outcome Unit) (b : Browser) (s : KnowledgeState)
    (h : s.selectedFile = none) :
    WorkspaceKnowledge.handleFileUpload workspaceId now net b s = Step.skip b s := by
  simp only [WorkspaceKnowledge.handleFileUpload, h]

/-- The result of `handleFileUpload` when the upload succeeds. -/
theorem handleFileUpload_of_ok (workspaceId : String) (now : Nat)
    (net : Config → Outcome Unit) (b : Browser) (s : KnowledgeState) (file : File)
    (response : Response Unit) (hf : s.selectedFile = some file)
    (h : net (uploadRequest b.localStorage workspaceId file) = .ok response) :
    WorkspaceKnowledge.handleFileUpload workspaceId now net b s
      = { browser := b,
          state := { s with
            sources := ⟨"temp-" ++ toString now, file.name, "FILE", "PROCESSING"⟩ :: s.sources,
            isUploadModalOpen := false, selectedFile := none, isUploading := false,
            error := none },
          sent := [uploadRequest b.localStorage workspaceId file],
          timers := [⟨.fetchKnowledgeSources workspaceId, 5000⟩], alerts := [] } := by
  have hr := api.request_ok b _ net response h
  have hs := api.request_sent b
    (api.post ("/workspaces/" ++ workspaceId ++ "/knowledge/upload")
      (.formData [("file", file)]) [("Content-Type", "multipart/form-data")]) net
  simp only [WorkspaceKnowledge.handleFileUpload, hf, hr.1, hr.2, hs, uploadRequest]

/-- The result of `handleFileUpload` when the upload fails. -/
theorem handleFileUpload_of_error (workspaceId : String) (now : Nat)
    (net : Config → Outcome Unit) (b : Browser) (s : KnowledgeState) (file : File)
    (error : AxiosError) (hf : s.selectedFile = some file)
    (h : net (uploadRequest b.localStorage workspaceId file) = .error error) :
    WorkspaceKnowledge.handleFileUpload workspaceId now net b s
      = { browser := (@api.interceptors.response.onRejected Unit b error).1,
          state := { s with error := some "Ошибка при загрузке файла.", isUploading := false },
          sent := [uploadRequest b.localStorage workspaceId file], timers := [],
          alerts := [] } := by
  have hr := api.request_error b _ net error h
  have hs := api.request_sent b
    (api.post ("/workspaces/" ++ workspaceId ++ "/knowledge/upload")
      (.formData [("file", file)]) [("Content-Type", "multipart/form-data")]) net
  simp only [WorkspaceKnowledge.handleFileUpload, hf, hr.1, hr.2, hs, uploadRequest]

/-- C17: without a selected file `handleFileUpload` sends nothing and leaves the
state as it is.  When the upload succeeds, the sources list afterwards is one
placeholder (name of the selected file, type `FILE`, status `PROCESSING`) followed
by the previous list, the upload modal is closed and the selected file cleared.
When the upload fails, the sources list, the modal and the selected file are as
before and the error is set.  In both cases `isUploading` ends false. -/
theorem upload_updates_sources (workspaceId : String) (now : Nat) (net : Config → Outcome Unit)
    (b : Browser) (s : KnowledgeState) :
    (s.selectedFile = none →
      (WorkspaceKnowledge.handleFileUpload workspaceId now net b s).sent = [] ∧
      (WorkspaceKnowledge.handleFileUpload workspaceId now net b s).state = s ∧
      (WorkspaceKnowledge.handleFileUpload workspaceId now net b s).browser = b) ∧
    (∀ file response, s.selectedFile = some file →
      net (uploadRequest b.localStorage workspaceId file) = .ok response →
      (∃ placeholder : KnowledgeSource,
        (WorkspaceKnowledge.handleFileUpload workspaceId now net b s).state.sources
          = placeholder :: s.sources ∧
        placeholder.name = file.name ∧ placeholder.type = "FILE" ∧
        placeholder.status = "PROCESSING") ∧
      (WorkspaceKnowledge.handleFileUpload workspaceId now net b s).state.isUploadModalOpen
        = false ∧
      (WorkspaceKnowledge.handleFileUpload workspaceId now net b s).state.selectedFile = none ∧
      (WorkspaceKnowledge.handleFileUpload workspaceId now net b s).state.isUploading = false) ∧
    (∀ file error, s.selectedFile = some file →
      net (uploadRequest b.localStorage workspaceId file) = .error error →
      (WorkspaceKnowledge.handleFileUpload workspaceId now net b s).state.sources = s.sources ∧
      (WorkspaceKnowledge.handleFileUpload workspaceId now net b s).state.isUploadModalOpen
        = s.isUploadModalOpen ∧
      (WorkspaceKnowledge.handleFileUpload workspaceId now net b s).state.selectedFile
        = s.selectedFile ∧
      (WorkspaceKnowledge.handleFileUpload workspaceId now net b s).state.error
        = some "Ошибка при загрузке файла." ∧
      (WorkspaceKnowledge.handleFileUpload workspaceId now net b s).state.isUploading = false) := by
  refine ⟨?_, ?_, ?_⟩
  · intro h
    rw [handleFileUpload_of_none workspaceId now net b s h]
    exact ⟨rfl, rfl, rfl⟩
  · intro file response hf h
    rw [handleFileUpload_of_ok workspaceId now net b s file response hf h]
    exact ⟨⟨_, rfl, rfl, rfl, rfl⟩, rfl, rfl, rfl⟩
  · intro file error hf h
    rw [handleFileUpload_of_error workspaceId now net b s file error hf h]
    exact ⟨rfl, rfl, rfl, rfl, rfl⟩

/-- C17 at the file `policy.pdf` uploaded into a list of one source. -/
theorem upload_updates_sources_witness :
    (WorkspaceKnowledge.handleFileUpload "w1" 1700 (fun _ => .ok ⟨202, ()⟩) ⟨⟨[]⟩, "/"⟩
      ⟨[⟨"s1", "faq", "Q&A", "COMPLETED"⟩], false, none, true, false, false,
        some ⟨"policy.pdf", "..."⟩, "", "", false⟩).state
      = ⟨[⟨"temp-1700", "policy.pdf", "FILE", "PROCESSING"⟩, ⟨"s1", "faq", "Q&A", "COMPLETED"⟩],
        false, none, false, false, false, none, "", "", false⟩ ∧
    (WorkspaceKnowledge.handleFileUpload "w1" 1700 (fun _ => .ok ⟨202, ()⟩) ⟨⟨[]⟩, "/"⟩
      ⟨[⟨"s1", "faq", "Q&A", "COMPLETED"⟩], false, none, true, false, false,
        some ⟨"policy.pdf", "..."⟩, "", "", false⟩).state.selectedFile = none :=
  ⟨by decide, ((upload_updates_sources "w1" 1700 (fun _ => .ok ⟨202, ()⟩) ⟨⟨[]⟩, "/"⟩
    ⟨[⟨"s1", "faq", "Q&A", "COMPLETED"⟩], false, none, true, false, false,
      some ⟨"policy.pdf", "..."⟩, "", "", false⟩).2.1 ⟨"policy.pdf", "..."⟩ ⟨202, ()⟩
    rfl rfl).2.2.1⟩

/-- C18: a successful upload schedules exactly one timer, the re-fetch of the
knowledge list of the route with a delay of 5000 ms, whatever the file; a failed
upload and a submit without a selected file schedule none. -/
theorem upload_schedules_one_refetch (workspaceId : String) (now : Nat)
    (net : Config → Outcome Unit) (b : Browser) (s : KnowledgeState) :
    (∀ file response, s.selectedFile = some file →
      net (uploadRequest b.localStorage workspaceId file) = .ok response →
      (WorkspaceKnowledge.handleFileUpload workspaceId now net b s).timers
        = [⟨.fetchKnowledgeSources workspaceId, 5000⟩]) ∧
    (∀ file error, s.selectedFile = some file →
      net (uploadRequest b.localStorage workspaceId file) = .error error →
      (WorkspaceKnowledge.handleFileUpload workspaceId now net b s).timers = []) ∧
    (s.selectedFile = none →
      (WorkspaceKnowledge.handleFileUpload workspaceId now net b s).timers = []) := by
  refine ⟨?_, ?_, ?_⟩
  · intro file response hf h
    rw [handleFileUpload_of_ok workspaceId now net b s file response hf h]
  · intro file error hf h
    rw [handleFileUpload_of_error workspaceId now net b s file error hf h]
  · intro h
    rw [handleFileUpload_of_none workspaceId now net b s h]
    rfl

/-- C18 at two different files: the same single timer. -/
theorem upload_schedules_one_refetch_witness :
    (WorkspaceKnowledge.handleFileUpload "w1" 1700 (fun _ => .ok ⟨202, ()⟩) ⟨⟨[]⟩, "/"⟩
      ⟨[], false, none, true, false, false, some ⟨"policy.pdf", "..."⟩, "", "", false⟩).timers
      = [⟨.fetchKnowledgeSources "w1", 5000⟩] ∧
    (WorkspaceKnowledge.handleFileUpload "w1" 1800 (fun _ => .ok ⟨202, ()⟩) ⟨⟨[]⟩, "/"⟩
      ⟨[], false, none, true, false, false, some ⟨"big.docx", "......"⟩, "", "", false⟩).timers
      = [⟨.fetchKnowledgeSources "w1", 5000⟩] :=
  ⟨(upload_schedules_one_refetch "w1" 1700 (fun _ => .ok ⟨202, ()⟩) ⟨⟨[]⟩, "/"⟩
      ⟨[], false, none, true, false, false, some ⟨"policy.pdf", "..."⟩, "", "", false⟩).1
      ⟨"policy.pdf", "..."⟩ ⟨202, ()⟩ rfl rfl,
   by decide⟩

/-! ## The re-fetch after an upload -/

/-- The function `fetchKnowledgeSources` schedules nothing. -/
theorem fetchKnowledgeSources_timers (workspaceId : String)
    (net : Config → Outcome (List KnowledgeSource)) (b : Browser) (s : KnowledgeState) :
    (WorkspaceKnowledge.fetchKnowledgeSources workspaceId net b s).timers = [] := by
  simp only [WorkspaceKnowledge.fetchKnowledgeSources]
  split <;> rfl

/-- The result of `fetchKnowledgeSources` when the request succeeds. -/
theorem fetchKnowledgeSources_of_ok (workspaceId : String)
    (net : Config → Outcome (List KnowledgeSource)) (b : Browser) (s : KnowledgeState)
    (response : Response (List KnowledgeSource))
    (h : net (knowledgeRequest b.localStorage workspaceId) = .ok response) :
    WorkspaceKnowledge.fetchKnowledgeSources workspaceId net b s
      = { browser := b,
          state := { s with sources := response.data, loading := false, error := none },
          sent := [knowledgeRequest b.localStorage workspaceId], timers := [], alerts := [] } := by
  have hr := api.request_ok b _ net response h
  have hs := api.request_sent b (api.get ("/workspaces/" ++ workspaceId ++ "/knowledge") []) net
  simp only [WorkspaceKnowledge.fetchKnowledgeSources, hr.1, hr.2, hs, knowledgeRequest]

/-- One pending re-fetch fires once and leaves no timer behind, however long the
queue is watched. -/
theorem fireTimers_single_refetch (workspaceId : String)
    (nets : Nat → Config → Outcome (List KnowledgeSource)) (fuel delay : Nat) (b : Browser)
    (s : KnowledgeState) :
    (WorkspaceKnowledge.fireTimers nets (fuel + 1)
      [⟨.fetchKnowledgeSources workspaceId, delay⟩] b s).sent
      = [knowledgeRequest b.localStorage workspaceId] ∧
    (WorkspaceKnowledge.fireTimers nets (fuel + 1)
      [⟨.fetchKnowledgeSources workspaceId, delay⟩] b s).timers = [] := by
  have ht := fetchKnowledgeSources_timers workspaceId (nets fuel) b s
  have hsent := fetchKnowledgeSources_sent workspaceId (nets fuel) b s
  simp only [WorkspaceKnowledge.fireTimers, Callback.run, ht, hsent, List.nil_append]
  cases fuel with
  | zero => exact ⟨rfl, rfl⟩
  | succ n => exact ⟨rfl, rfl⟩

/-- C19, the claim as stated fails: the re-fetch that follows an upload finds the
uploaded source still `PROCESSING` and schedules no further re-fetch; watching the
timer queue for ten firings sees one request and then an empty queue, with the
source still shown as `PROCESSING`. -/
theorem refetch_is_not_repeated :
    (WorkspaceKnowledge.fetchKnowledgeSources "w1"
      (fun _ => .ok ⟨200, [⟨"s1", "policy.pdf", "FILE", "PROCESSING"⟩]⟩) ⟨⟨[]⟩, "/"⟩
      ⟨[⟨"temp-1700", "policy.pdf", "FILE", "PROCESSING"⟩], false, none, false, false, false,
        none, "", "", false⟩).timers = [] ∧
    (WorkspaceKnowledge.fireTimers
      (fun _ _ => .ok ⟨200, [⟨"s1", "policy.pdf", "FILE", "PROCESSING"⟩]⟩) 10
      (WorkspaceKnowledge.handleFileUpload "w1" 1700 (fun _ => .ok ⟨202, ()⟩) ⟨⟨[]⟩, "/"⟩
        ⟨[], false, none, true, false, false, some ⟨"policy.pdf", "..."⟩, "", "",
          false⟩).timers
      ⟨⟨[]⟩, "/"⟩
      ⟨[⟨"temp-1700", "policy.pdf", "FILE", "PROCESSING"⟩], false, none, false, false, false,
        none, "", "", false⟩).sent.map Config.line
      = [(.GET, "/workspaces/w1/knowledge", .empty, [])] ∧
    (WorkspaceKnowledge.fireTimers
      (fun _ _ => .ok ⟨200, [⟨"s1", "policy.pdf", "FILE", "PROCESSING"⟩]⟩) 10
      (WorkspaceKnowledge.handleFileUpload "w1" 1700 (fun _ => .ok ⟨202, ()⟩) ⟨⟨[]⟩, "/"⟩
        ⟨[], false, none, true, false, false, some ⟨"policy.pdf", "..."⟩, "", "",
          false⟩).timers
      ⟨⟨[]⟩, "/"⟩
      ⟨[⟨"temp-1700", "policy.pdf", "FILE", "PROCESSING"⟩], false, none, false, false, false,
        none, "", "", false⟩).state.sources
      = [⟨"s1", "policy.pdf", "FILE", "PROCESSING"⟩] := by
  decide

/-- C19, amended: the client does not poll.  The re-fetch scheduled by an upload
runs once: it sends one `GET /workspaces/{id}/knowledge`, schedules no further
timer whatever statuses it finds, and leaves the timer queue empty however long
the queue is watched; when it succeeds the list shows the sources of that one
response. -/
theorem refetch_runs_once (workspaceId : String)
    (nets : Nat → Config → Outcome (List KnowledgeSource)) (fuel : Nat) (b : Browser)
    (s : KnowledgeState) :
    (∀ net, (WorkspaceKnowledge.fetchKnowledgeSources workspaceId net b s).timers = []) ∧
    (WorkspaceKnowledge.fireTimers nets (fuel + 1)
      [⟨.fetchKnowledgeSources workspaceId, 5000⟩] b s).sent.map Config.line
      = [(.GET, "/workspaces/" ++ workspaceId ++ "/knowledge", .empty, [])] ∧
    (WorkspaceKnowledge.fireTimers nets (fuel + 1)
      [⟨.fetchKnowledgeSources workspaceId, 5000⟩] b s).timers = [] ∧
    (∀ net response, net (knowledgeRequest b.localStorage workspaceId) = .ok response →
      (WorkspaceKnowledge.fetchKnowledgeSources workspaceId net b s).state.sources
        = response.data) := by
  have hf := fireTimers_single_refetch workspaceId nets fuel 5000 b s
  refine ⟨fun net => fetchKnowledgeSources_timers workspaceId net b s, ?_, hf.2, ?_⟩
  · rw [hf.1, List.map_singleton]
    exact congrArg (fun x => [x])
      (request_onFulfilled_line b.localStorage
        (api.get ("/workspaces/" ++ workspaceId ++ "/knowledge") []))
  · intro net response h
    rw [fetchKnowledgeSources_of_ok workspaceId net b s response h]

/-- C19, amended, at a re-fetch that finds the source completed: the list shows
it, and the queue is empty after the one firing. -/
theorem refetch_runs_once_witness :
    (WorkspaceKnowledge.fetchKnowledgeSources "w1"
      (fun _ => .ok ⟨200, [⟨"s1", "policy.pdf", "FILE", "COMPLETED"⟩]⟩) ⟨⟨[]⟩, "/"⟩
      ⟨[⟨"temp-1700", "policy.pdf", "FILE", "PROCESSING"⟩], false, none, false, false, false,
        none, "", "", false⟩).state.sources
      = [⟨"s1", "policy.pdf", "FILE", "COMPLETED"⟩] :=
  (refetch_runs_once "w1" (fun _ _ => .error ⟨"Network Error", none⟩) 0 ⟨⟨[]⟩, "/"⟩
    ⟨[⟨"temp-1700", "policy.pdf", "FILE", "PROCESSING"⟩], false, none, false, false, false,
      none, "", "", false⟩).2.2.2
    (fun _ => .ok ⟨200, [⟨"s1", "policy.pdf", "FILE", "COMPLETED"⟩]⟩)
    ⟨200, [⟨"s1", "policy.pdf", "FILE", "COMPLETED"⟩]⟩ rfl

/-! ## Deleting a source -/

/-- The handler `handleDeleteSource` when the user declines. -/
theorem handleDeleteSource_of_declined (workspaceId : String) (net : Config → Outcome Unit)
    (sourceId : String) (b : Browser) (s : KnowledgeState) :
    WorkspaceKnowledge.handleDeleteSource workspaceId false net sourceId b s = Step.skip b s := by
  simp [WorkspaceKnowledge.handleDeleteSource]

/-- The result of `handleDeleteSource` when the request succeeds. -/
theorem handleDeleteSource_of_ok (workspaceId : String) (net : Config → Outcome Unit)
    (sourceId : String) (b : Browser) (s : KnowledgeState) (response : Response Unit)
    (h : net (deleteRequest b.localStorage workspaceId sourceId) = .ok response) :
    WorkspaceKnowledge.handleDeleteSource workspaceId true net sourceId b s
      = { browser := b,
          state := { s with sources := s.sources.filter (fun src => src.id ≠ sourceId) },
          sent := [deleteRequest b.localStorage workspaceId sourceId], timers := [],
          alerts := [] } := by
  have hr := api.request_ok b _ net response h
  have hs := api.request_sent b
    (api.delete ("/workspaces/" ++ workspaceId ++ "/knowledge/" ++ sourceId)) net
  simp only [WorkspaceKnowledge.handleDeleteSource, Bool.not_true, Bool.false_eq_true, if_false,
    hr.1, hr.2, hs, deleteRequest]

/-- The result of `handleDeleteSource` when the request fails. -/
theorem handleDeleteSource_of_error (workspaceId : String) (net : Config → Outcome Unit)
    (sourceId : String) (b : Browser) (s : KnowledgeState) (error : AxiosError)
    (h : net (deleteRequest b.localStorage workspaceId sourceId) = .error error) :
    WorkspaceKnowledge.handleDeleteSource workspaceId true net sourceId b s
      = { browser := (@api.interceptors.response.onRejected Unit b error).1,
          state := s,
          sent := [deleteRequest b.localStorage workspaceId sourceId], timers := [],
          alerts := ["Не удалось удалить источник."] } := by
  have hr := api.request_error b _ net error h
  have hs := api.request_sent b
    (api.delete ("/workspaces/" ++ workspaceId ++ "/knowledge/" ++ sourceId)) net
  simp only [WorkspaceKnowledge.handleDeleteSource, Bool.not_true, Bool.false_eq_true, if_false,
    hr.1, hr.2, hs, deleteRequest]

/-- C20: for every source id, `handleDeleteSource` sends nothing and changes nothing
when the user declines the confirmation; when the `DELETE` succeeds, the list
afterwards holds no source with that id and every other source in its previous
order, and a second successful removal of the same id leaves that list unchanged;
when the `DELETE` fails, the state, and so the list, is unchanged. -/
theorem delete_source_updates_list (workspaceId sourceId : String)
    (net : Config → Outcome Unit) (b : Browser) (s : KnowledgeState) :
    ((WorkspaceKnowledge.handleDeleteSource workspaceId false net sourceId b s).sent = [] ∧
      (WorkspaceKnowledge.handleDeleteSource workspaceId false net sourceId b s).state = s ∧
      (WorkspaceKnowledge.handleDeleteSource workspaceId false net sourceId b s).browser = b) ∧
    (∀ response, net (deleteRequest b.localStorage workspaceId sourceId) = .ok response →
      (WorkspaceKnowledge.handleDeleteSource workspaceId true net sourceId b s).state.sources
        = s.sources.filter (fun src => src.id ≠ sourceId) ∧
      (∀ src, src ∈
          (WorkspaceKnowledge.handleDeleteSource workspaceId true net sourceId b s).state.sources ↔
        src ∈ s.sources ∧ src.id ≠ sourceId) ∧
      (WorkspaceKnowledge.handleDeleteSource workspaceId true net sourceId b s).state.sources.Sublist
        s.sources ∧
      (∀ net2 b2 response2,
        net2 (deleteRequest b2.localStorage workspaceId sourceId) = .ok response2 →
        (WorkspaceKnowledge.handleDeleteSource workspaceId true net2 sourceId b2
          (WorkspaceKnowledge.handleDeleteSource workspaceId true net sourceId b s).state).state.sources
          = (WorkspaceKnowledge.handleDeleteSource workspaceId true net sourceId b
              s).state.sources)) ∧
    (∀ error, net (deleteRequest b.localStorage workspaceId sourceId) = .error error →
      (WorkspaceKnowledge.handleDeleteSource workspaceId true net sourceId b s).state = s) := by
  refine ⟨?_, ?_, ?_⟩
  · rw [handleDeleteSource_of_declined]
    exact ⟨rfl, rfl, rfl⟩
  · intro response h
    rw [handleDeleteSource_of_ok workspaceId net sourceId b s response h]
    refine ⟨rfl, ?_, List.filter_sublist _, ?_⟩
    · intro src
      simp [List.mem_filter]
    · intro net2 b2 response2 h2
      rw [handleDeleteSource_of_ok workspaceId net2 sourceId b2 _ response2 h2]
      simp [List.filter_filter]
  · intro error h
    rw [handleDeleteSource_of_error workspaceId net sourceId b s error h]

/-- C20 at a list of three sources, the middle one deleted. -/
theorem delete_source_updates_list_witness :
    (WorkspaceKnowledge.handleDeleteSource "w1" true (fun _ => .ok ⟨204, ()⟩) "s2" ⟨⟨[]⟩, "/"⟩
      ⟨[⟨"s1", "a", "FILE", "COMPLETED"⟩, ⟨"s2", "b", "FILE", "FAILED"⟩,
        ⟨"s3", "c", "Q&A", "COMPLETED"⟩], false, none, false, false, false, none, "", "",
        false⟩).state.sources
      = [⟨"s1", "a", "FILE", "COMPLETED"⟩, ⟨"s3", "c", "Q&A", "COMPLETED"⟩] :=
  ((delete_source_updates_list "w1" "s2" (fun _ => .ok ⟨204, ()⟩) ⟨⟨[]⟩, "/"⟩
    ⟨[⟨"s1", "a", "FILE", "COMPLETED"⟩, ⟨"s2", "b", "FILE", "FAILED"⟩,
      ⟨"s3", "c", "Q&A", "COMPLETED"⟩], false, none, false, false, false, none, "", "",
      false⟩).2.1 ⟨204, ()⟩ rfl).1.trans (by decide)

/-! ## Status badges and type icons -/

/-- C21, the claim as stated fails: for the status `PENDING` the component
`StatusBadge` renders nothing. -/
theorem status_badge_pending_renders_nothing :
    StatusBadge "PENDING" = none := by
  decide

/-- C21, amended: `StatusBadge` renders a badge exactly for the statuses
`PROCESSING`, `COMPLETED` and `FAILED`; the badges of these three statuses differ
from each other in colour, icon and label; for every other status, `PENDING`
included, it renders nothing. -/
theorem status_badge_three_statuses :
    (∀ status, (StatusBadge status).isSome = true ↔
      (status = "COMPLETED" ∨ status = "PROCESSING" ∨ status = "FAILED")) ∧
    (∀ status, status ≠ "COMPLETED" → status ≠ "PROCESSING" → status ≠ "FAILED" →
      StatusBadge status = none) ∧
    (∀ a b, a ∈ ["COMPLETED", "PROCESSING", "FAILED"] →
      b ∈ ["COMPLETED", "PROCESSING", "FAILED"] → a ≠ b →
      ∃ x y, StatusBadge a = some x ∧ StatusBadge b = some y ∧
        x.className ≠ y.className ∧ x.icon ≠ y.icon ∧ x.label ≠ y.label) := by
  refine ⟨?_, ?_, ?_⟩
  · intro status
    by_cases h1 : status = "COMPLETED"
    · simp [StatusBadge, h1]
    · by_cases h2 : status = "PROCESSING"
      · simp [StatusBadge, h2]
      · by_cases h3 : status = "FAILED"
        · simp [StatusBadge, h3]
        · simp [StatusBadge, h1, h2, h3]
  · intro status h1 h2 h3
    simp [StatusBadge, h1, h2, h3]
  · intro a b ha hb hab
    simp only [List.mem_cons, List.mem_singleton, List.not_mem_nil, or_false] at ha hb
    rcases ha with ha | ha | ha <;> rcases hb with hb | hb | hb <;> subst ha <;> subst hb <;>
      first
        | exact absurd rfl hab
        | exact ⟨_, _, rfl, rfl, by decide, by decide, by decide⟩

/-- C21, amended, at the two badges a freshly uploaded file goes through. -/
theorem status_badge_three_statuses_witness :
    (StatusBadge "PROCESSING").isSome = true ∧ (StatusBadge "COMPLETED").isSome = true ∧
    (StatusBadge "UPLOADED").isSome = false :=
  ⟨(status_badge_three_statuses.1 "PROCESSING").2 (Or.inr (Or.inl rfl)),
   (status_badge_three_statuses.1 "COMPLETED").2 (Or.inl rfl),
   by rw [status_badge_three_statuses.2.1 "UPLOADED" (by decide) (by decide) (by decide)]; rfl⟩

/-- C22, the claim as stated fails: the type `QA` of the data model gets the grey
default icon, not the purple `Type` icon. -/
theorem type_icon_QA_is_default :
    TypeIcon "QA" = ⟨.file, "w-5 h-5 text-gray-500"⟩ ∧
    TypeIcon "QA" ≠ ⟨.type, "w-5 h-5 text-purple-600"⟩ := by
  decide

/-- C22, amended: `TypeIcon` gives `FILE` the blue `File` icon, the type written
`Q&A` the purple `Type` icon and `ARTICLE` the green `FileText` icon; exactly the
types other than these three strings, `QA` included, get the grey `File` icon. -/
theorem type_icon_by_type :
    TypeIcon "FILE" = ⟨.file, "w-5 h-5 text-blue-600"⟩ ∧
    TypeIcon "Q&A" = ⟨.type, "w-5 h-5 text-purple-600"⟩ ∧
    TypeIcon "ARTICLE" = ⟨.fileText, "w-5 h-5 text-green-600"⟩ ∧
    (∀ type, TypeIcon type = ⟨.file, "w-5 h-5 text-gray-500"⟩ ↔
      (type ≠ "FILE" ∧ type ≠ "Q&A" ∧ type ≠ "ARTICLE")) := by
  refine ⟨by decide, by decide, by decide, ?_⟩
  intro type
  by_cases h1 : type = "FILE"
  · subst h1
    simp only [ne_eq, not_true_eq_false, false_and, iff_false]
    decide
  · by_cases h2 : type = "Q&A"
    · subst h2
      simp only [ne_eq, not_true_eq_false, false_and, and_false, iff_false]
      decide
    · by_cases h3 : type = "ARTICLE"
      · subst h3
        simp only [ne_eq, not_true_eq_false, and_false, iff_false]
        decide
      · simp [TypeIcon, h1, h2, h3]

/-- C22, amended, at a type the client does not know. -/
theorem type_icon_by_type_witness :
    TypeIcon "URL" = ⟨.file, "w-5 h-5 text-gray-500"⟩ :=
  (type_icon_by_type.2.2.2 "URL").2 ⟨by decide, by decide, by decide⟩

/-! ## The chart of popular questions -/

/-- C23, the claim as stated fails: for a response with six top questions the chart
data has six entries. -/
theorem chart_data_six_entries :
    (WorkspaceAnalytics.chartData
      (some ⟨6, 6, 0, [⟨"q1", 1⟩, ⟨"q2", 1⟩, ⟨"q3", 1⟩, ⟨"q4", 1⟩, ⟨"q5", 1⟩, ⟨"q6", 1⟩],
        []⟩)).map List.length = some 6 := by
  decide

/-- C23, amended: the chart data has exactly one entry for each element of
`top_questions` of the response, in the same order, holding that question and its
count; so it has at most 5 entries whenever the response lists at most 5
questions; the client itself cuts nothing off. -/
theorem chart_data_one_entry_per_question (stats : Stats) :
    ∃ data, WorkspaceAnalytics.chartData (some stats) = some data ∧
      data.length = stats.top_questions.length ∧
      data.map (fun e => (e.fullQuestion, e.count))
        = stats.top_questions.map (fun q => (q.question, q.count)) ∧
      (stats.top_questions.length ≤ 5 → data.length ≤ 5) := by
  refine ⟨_, rfl, ?_, ?_, ?_⟩
  · simp
  · simp [List.map_map, Function.comp_def]
  · intro h
    simpa using h

/-- C23, amended, at a response with two questions, one of them longer than 30
characters. -/
theorem chart_data_one_entry_per_question_witness :
    WorkspaceAnalytics.chartData
      (some ⟨2, 2, 0, [⟨"How many vacation days do I have this year?", 7⟩, ⟨"Wifi?", 2⟩], []⟩)
      = some [⟨JsString.ofString "How many vacation days do I ha...",
                "How many vacation days do I have this year?", 7⟩,
              ⟨JsString.ofString "Wifi?", "Wifi?", 2⟩] := by
  obtain ⟨data, h, _⟩ := chart_data_one_entry_per_question
    ⟨2, 2, 0, [⟨"How many vacation days do I have this year?", 7⟩, ⟨"Wifi?", 2⟩], []⟩
  rw [h]
  exact h.symm.trans (by decide)

/-! ## The status state machine -/

/-- One move of the pipeline keeps the status or follows an edge. -/
theorem Ingestion.step_status (ceiling : Nat) (src : IngestionSource) (ev : IngestionEvent) :
    src.status = (Ingestion.step ceiling src ev).status ∨
    SourceStatus.edge src.status (Ingestion.step ceiling src ev).status = true := by
  obtain ⟨status, attempts, detail⟩ := src
  cases ev with
  | pick => cases status <;> simp [Ingestion.step, SourceStatus.edge]
  | stepFailed d =>
    cases status with
    | PENDING => exact Or.inl rfl
    | COMPLETED => exact Or.inl rfl
    | FAILED => exact Or.inl rfl
    | PROCESSING =>
      by_cases hlt : attempts + 1 < ceiling
      · left
        simp [Ingestion.step, hlt]
      · right
        simp [Ingestion.step, hlt, SourceStatus.edge]
  | indexed => cases status <;> simp [Ingestion.step, SourceStatus.edge]

/-- No move changes a source in a terminal status. -/
theorem Ingestion.step_of_terminal (ceiling : Nat) (src : IngestionSource) (ev : IngestionEvent)
    (h : src.status.terminal = true) : Ingestion.step ceiling src ev = src := by
  obtain ⟨status, attempts, detail⟩ := src
  cases status <;> simp [SourceStatus.terminal] at h <;> cases ev <;> rfl

/-- The statuses of a run start with the status of the source and form a chain of
kept statuses and edges. -/
theorem Ingestion.statuses_chain (ceiling : Nat) (events : List IngestionEvent) :
    ∀ src : IngestionSource, ∃ rest,
      Ingestion.statuses ceiling src events = src.status :: rest ∧
      List.Chain (fun a b => a = b ∨ SourceStatus.edge a b = true) src.status rest := by
  induction events with
  | nil =>
    intro src
    exact ⟨[], rfl, List.Chain.nil⟩
  | cons ev more ih =>
    intro src
    obtain ⟨rest, hrest, hchain⟩ := ih (Ingestion.step ceiling src ev)
    refine ⟨(Ingestion.step ceiling src ev).status :: rest, ?_, ?_⟩
    · simp only [Ingestion.statuses, hrest]
    · exact List.Chain.cons (Ingestion.step_status ceiling src ev) hchain

/-- From a terminal status every later status is that status. -/
theorem Ingestion.statuses_of_terminal (ceiling : Nat) (events : List IngestionEvent) :
    ∀ src : IngestionSource, src.status.terminal = true →
      ∀ st, st ∈ Ingestion.statuses ceiling src events → st = src.status := by
  induction events with
  | nil =>
    intro src _ st hst
    simpa [Ingestion.statuses] using hst
  | cons ev more ih =>
    intro src hterm st hst
    simp only [Ingestion.statuses, List.mem_cons] at hst
    rcases hst with hst | hst
    · exact hst
    · rw [Ingestion.step_of_terminal ceiling src ev hterm] at hst
      exact ih src hterm st hst

/-- C24: for every knowledge source, every attempt ceiling and every list of
pipeline events, each status in the sequence the source takes is followed by the
same status or by the target of one of the edges `PENDING -> PROCESSING`,
`PROCESSING -> COMPLETED`, `PROCESSING -> FAILED`; no edge goes backward or leaves
`COMPLETED` or `FAILED`, and once a source is `COMPLETED` or `FAILED` every later
status is that status. -/
theorem ingestion_statuses_follow_edges (ceiling : Nat) (src : IngestionSource)
    (events : List IngestionEvent) :
    List.Chain' (fun a b => a = b ∨ SourceStatus.edge a b = true)
      (Ingestion.statuses ceiling src events) ∧
    (∀ a b, SourceStatus.edge a b = true ↔
      ((a = .PENDING ∧ b = .PROCESSING) ∨ (a = .PROCESSING ∧ b = .COMPLETED) ∨
        (a = .PROCESSING ∧ b = .FAILED))) ∧
    (∀ a b, SourceStatus.edge a b = true → SourceStatus.edge b a = false ∧ a.terminal = false) ∧
    (src.status.terminal = true →
      ∀ st, st ∈ Ingestion.statuses ceiling src events → st = src.status) := by
  refine ⟨?_, ?_, ?_, Ingestion.statuses_of_terminal ceiling events src⟩
  · obtain ⟨rest, hrest, hchain⟩ := Ingestion.statuses_chain ceiling events src
    rw [hrest]
    exact hchain
  · intro a b
    cases a <;> cases b <;> simp [SourceStatus.edge]
  · intro a b
    cases a <;> cases b <;> simp [SourceStatus.edge, SourceStatus.terminal]

/-- C24 at a new source with ceiling 3 whose job fails three times: the later
`indexed` and `pick` events leave it `FAILED`. -/
theorem ingestion_statuses_follow_edges_witness :
    Ingestion.statuses 3 Ingestion.create
      [.pick, .stepFailed "x", .stepFailed "x", .stepFailed "parse error", .indexed, .pick]
      = [.PENDING, .PROCESSING, .PROCESSING, .PROCESSING, .FAILED, .FAILED, .FAILED] ∧
    List.Chain' (fun a b => a = b ∨ SourceStatus.edge a b = true)
      (Ingestion.statuses 3 Ingestion.create
        [.pick, .stepFailed "x", .stepFailed "x", .stepFailed "parse error", .indexed, .pick]) :=
  ⟨by decide, (ingestion_statuses_follow_edges 3 Ingestion.create
    [.pick, .stepFailed "x", .stepFailed "x", .stepFailed "parse error", .indexed, .pick]).1⟩

/-! ## What a chat message shows -/

/-- A text without characters beyond `U+FFFF` has one code unit per character. -/
theorem JsString.ofString_of_bmp (s : String) (h : ∀ c, c ∈ s.data → c.toNat < 0x10000) :
    (JsString.ofString s).units = s.data.map Char.toNat := by
  obtain ⟨l⟩ := s
  simp only [JsString.ofString]
  induction l with
  | nil => rfl
  | cons c rest ih =>
    have hc : c.toNat < 0x10000 := h c (List.mem_cons_self c rest)
    have hrest : ∀ d, d ∈ rest → d.toNat < 0x10000 := fun d hd => h d (List.mem_cons_of_mem c hd)
    simp only [List.flatMap_cons, List.map_cons, utf16Units, hc, if_true, List.singleton_append]
    exact congrArg (c.toNat :: ·) (ih hrest)

/-- C25, the claim as stated fails: an AI message of a no-confidence answer whose
`ticket_id` is not null but the empty string shows no ticket notice. -/
theorem empty_ticket_id_shows_no_notice :
    WorkspaceChat.ticketNotice ⟨"ai", "I do not know", some [], some "", false⟩ = none := by
  decide

/-- C25, amended: for every message the sources block is rendered exactly when the
message is from the AI and its sources list is present and not empty, and the
ticket notice is rendered exactly when the message is from the AI and its ticket id
is a non-empty string; the notice holds `ticket_id.slice(0, 8)`, the first 8 UTF-16
code units of the id, which are its first 8 characters when the id has no character
beyond `U+FFFF`.  So a no-confidence answer with no sources and a non-empty ticket
id shows the notice and no sources block, a message with an absent or empty ticket
id shows no notice, and a user message shows neither. -/
theorem message_blocks_rendered (numberToString : JsNumber → String) (msg : Message) :
    ((WorkspaceChat.sourcesBlock numberToString msg).isSome = true ↔
      (msg.sender = "ai" ∧ ∃ sources, msg.sources = some sources ∧ sources ≠ [])) ∧
    ((WorkspaceChat.ticketNotice msg).isSome = true ↔
      (msg.sender = "ai" ∧ ∃ id, msg.ticket_id = some id ∧ id ≠ "")) ∧
    (∀ id, msg.sender = "ai" → msg.ticket_id = some id → id ≠ "" →
      WorkspaceChat.ticketNotice msg
        = some ⟨(JsString.ofString "(Создан тикет для администратора: ").units ++
            (JsString.ofString id).units.take 8 ++ (JsString.ofString "...)").units⟩) ∧
    (∀ id, (∀ c, c ∈ id.data → c.toNat < 0x10000) →
      (sliceFrom0 id 8).units = (id.data.take 8).map Char.toNat) ∧
    (∀ id, msg.sender = "ai" → msg.sources = some [] → msg.ticket_id = some id → id ≠ "" →
      (WorkspaceChat.ticketNotice msg).isSome = true ∧
      WorkspaceChat.sourcesBlock numberToString msg = none) ∧
    ((msg.ticket_id = none ∨ msg.ticket_id = some "") → WorkspaceChat.ticketNotice msg = none) ∧
    (msg.sender = "user" →
      WorkspaceChat.sourcesBlock numberToString msg = none ∧
      WorkspaceChat.ticketNotice msg = none) := by
  obtain ⟨sender, text, sources, ticket_id, error⟩ := msg
  refine ⟨?_, ?_, ?_, ?_, ?_, ?_, ?_⟩
  · cases sources with
    | none => simp [WorkspaceChat.sourcesBlock]
    | some l =>
      cases l with
      | nil => simp [WorkspaceChat.sourcesBlock]
      | cons x xs =>
        by_cases hs : sender = "ai" <;> simp [WorkspaceChat.sourcesBlock, hs]
  · cases ticket_id with
    | none => simp [WorkspaceChat.ticketNotice]
    | some id =>
      by_cases hs : sender = "ai" <;> by_cases hid : id = "" <;>
        simp [WorkspaceChat.ticketNotice, truthy, hs, hid]
  · intro id hs ht hid
    simp only at hs ht
    subst hs
    cases ht
    simp [WorkspaceChat.ticketNotice, truthy, hid, sliceFrom0, JsString.append]
  · intro id hbmp
    simp only [sliceFrom0, JsString.ofString_of_bmp id hbmp, List.map_take]
  · intro id hs hsrc ht hid
    simp only at hs hsrc ht
    subst hs
    cases ht
    cases hsrc
    simp [WorkspaceChat.ticketNotice, WorkspaceChat.sourcesBlock, truthy, hid]
  · intro h
    simp only at h
    rcases h with h | h <;> subst h
    · rfl
    · simp [WorkspaceChat.ticketNotice, truthy]
  · intro hs
    simp only at hs
    subst hs
    constructor
    · cases sources <;> simp [WorkspaceChat.sourcesBlock]
    · cases ticket_id <;> simp [WorkspaceChat.ticketNotice]

/-- C25, amended, at the AI message of a no-confidence answer with a uuid as ticket
id, and at an id of five emoji, of which the slice keeps four (eight code units);
an emoji is a surrogate pair, and a slice may end in the first half of one. -/
theorem message_blocks_rendered_witness :
    WorkspaceChat.ticketNotice
      ⟨"ai", "I do not know", some [], some "3f2b8c1e-77aa-4d2e-9b1c-0a1b2c3d4e5f", false⟩
      = some (JsString.ofString "(Создан тикет для администратора: 3f2b8c1e...)") ∧
    WorkspaceChat.sourcesBlock (fun _ => "")
      ⟨"ai", "I do not know", some [], some "3f2b8c1e-77aa-4d2e-9b1c-0a1b2c3d4e5f", false⟩
      = none ∧
    WorkspaceChat.ticketNotice ⟨"ai", "I do not know", some [], some "😀😀😀😀😀", false⟩
      = some (JsString.ofString "(Создан тикет для администратора: 😀😀😀😀...)") ∧
    (JsString.ofString "😀").units = [0xD83D, 0xDE00] ∧
    (sliceFrom0 "abcdefg😀" 8).units = [97, 98, 99, 100, 101, 102, 103, 0xD83D] :=
  ⟨((message_blocks_rendered (fun _ => "")
      ⟨"ai", "I do not know", some [], some "3f2b8c1e-77aa-4d2e-9b1c-0a1b2c3d4e5f", false⟩).2.2.1
      "3f2b8c1e-77aa-4d2e-9b1c-0a1b2c3d4e5f" rfl rfl (by decide)).trans (by decide),
   by decide, by decide, by decide, by decide⟩

/-! ## The knowledge tab when the route changes -/

theorem KnowledgeTab.mem_record_sent (t : KnowledgeTab) (delayed : Bool)
    (st : Step KnowledgeState) (r : SentRequest) :
    r ∈ (t.record delayed st).sent ↔
      r ∈ t.sent ∨ ∃ c, c ∈ st.sent ∧ (⟨t.workspaceId, delayed, c⟩ : SentRequest) = r := by
  simp [KnowledgeTab.record, List.mem_append, List.mem_map]

/-- Every request of `fetchKnowledgeSources` is a contract line of its workspace. -/
theorem fetchKnowledgeSources_in_contract (workspaceId : String)
    (net : Config → Outcome (List KnowledgeSource)) (b : Browser) (s : KnowledgeState)
    (c : Config) (h : c ∈ (WorkspaceKnowledge.fetchKnowledgeSources workspaceId net b s).sent) :
    Contract.knowledge workspaceId c.line := by
  rw [fetchKnowledgeSources_sent] at h
  rw [List.mem_singleton.1 h, request_onFulfilled_line]
  exact Or.inl rfl

/-- Every request of `handleFileUpload` is a contract line of its workspace. -/
theorem handleFileUpload_in_contract (workspaceId : String) (now : Nat)
    (net : Config → Outcome Unit) (b : Browser) (s : KnowledgeState) (c : Config)
    (h : c ∈ (WorkspaceKnowledge.handleFileUpload workspaceId now net b s).sent) :
    Contract.knowledge workspaceId c.line := by
  obtain ⟨file, _, hline, _⟩ :=
    (workspace_requests_follow_contract workspaceId b).2.1 now net s c h
  exact Or.inr (Or.inl ⟨file, hline⟩)

/-- Every request of `handleQASubmit` is a contract line of its workspace. -/
theorem handleQASubmit_in_contract (workspaceId : String) (net : Config → Outcome Unit)
    (b : Browser) (s : KnowledgeState) (c : Config)
    (h : c ∈ (WorkspaceKnowledge.handleQASubmit workspaceId net b s).sent) :
    Contract.knowledge workspaceId c.line := by
  rw [handleQASubmit_sent] at h
  rw [List.mem_singleton.1 h, request_onFulfilled_line]
  exact Or.inr (Or.inr (Or.inl ⟨s.qaQuestion, s.qaAnswer, rfl⟩))

/-- Every request of `handleDeleteSource` is a contract line of its workspace. -/
theorem handleDeleteSource_in_contract (workspaceId : String) (confirm : Bool)
    (net : Config → Outcome Unit) (sourceId : String) (b : Browser) (s : KnowledgeState)
    (c : Config)
    (h : c ∈ (WorkspaceKnowledge.handleDeleteSource workspaceId confirm net sourceId b s).sent) :
    Contract.knowledge workspaceId c.line :=
  Or.inr (Or.inr (Or.inr ⟨sourceId,
    (workspace_requests_follow_contract workspaceId b).2.2.2.1 confirm net sourceId s c h⟩))

/-- The handler `handleDeleteSource` schedules nothing. -/
theorem handleDeleteSource_timers (workspaceId : String) (confirm : Bool)
    (net : Config → Outcome Unit) (sourceId : String) (b : Browser) (s : KnowledgeState) :
    (WorkspaceKnowledge.handleDeleteSource workspaceId confirm net sourceId b s).timers = [] := by
  simp only [WorkspaceKnowledge.handleDeleteSource]
  split
  · rfl
  · split <;> rfl

/-- One event keeps this true: every request sent by a handler or an effect is a
contract line of the workspace whose route was on screen when it was sent. -/
theorem KnowledgeTab.step_direct (t : KnowledgeTab) (ev : KnowledgeEvent)
    (h : ∀ r, r ∈ t.sent → r.delayed = false → Contract.knowledge r.route r.config.line) :
    ∀ r, r ∈ (t.step ev).sent → r.delayed = false →
      Contract.knowledge r.route r.config.line := by
  intro r hr hd
  cases ev with
  | navigate workspaceId net =>
    simp only [KnowledgeTab.step] at hr
    split at hr
    · exact h r hr hd
    · rcases (KnowledgeTab.mem_record_sent _ _ _ _).1 hr with hr | ⟨c, hc, he⟩
      · exact h r hr hd
      · subst he
        exact fetchKnowledgeSources_in_contract _ _ _ _ _ hc
  | setSelectedFile file => exact h r hr hd
  | setQaQuestion value => exact h r hr hd
  | setQaAnswer value => exact h r hr hd
  | setIsUploadModalOpen value => exact h r hr hd
  | setIsQAModalOpen value => exact h r hr hd
  | upload now net =>
    rcases (KnowledgeTab.mem_record_sent _ _ _ _).1 hr with hr | ⟨c, hc, he⟩
    · exact h r hr hd
    · subst he
      exact handleFileUpload_in_contract _ _ _ _ _ _ hc
  | submitQA net =>
    rcases (KnowledgeTab.mem_record_sent _ _ _ _).1 hr with hr | ⟨c, hc, he⟩
    · exact h r hr hd
    · subst he
      exact handleQASubmit_in_contract _ _ _ _ _ hc
  | deleteSource confirm net sourceId =>
    rcases (KnowledgeTab.mem_record_sent _ _ _ _).1 hr with hr | ⟨c, hc, he⟩
    · exact h r hr hd
    · subst he
      exact handleDeleteSource_in_contract _ _ _ _ _ _ _ hc
  | timer net =>
    simp only [KnowledgeTab.step] at hr
    split at hr
    · exact h r hr hd
    · rcases (KnowledgeTab.mem_record_sent _ _ _ _).1 hr with hr | ⟨c, _, he⟩
      · exact h r hr hd
      · subst he
        exact Bool.noConfusion hd

/-- The same over a run of events. -/
theorem KnowledgeTab.run_direct (events : List KnowledgeEvent) :
    ∀ t : KnowledgeTab,
      (∀ r, r ∈ t.sent → r.delayed = false → Contract.knowledge r.route r.config.line) →
      ∀ r, r ∈ (t.run events).sent → r.delayed = false →
        Contract.knowledge r.route r.config.line := by
  induction events with
  | nil =>
    intro t h
    exact h
  | cons ev rest ih =>
    intro t h
    exact ih (t.step ev) (KnowledgeTab.step_direct t ev h)

/-- Noting a handler that stayed with the workspace keeps the tab settled. -/
theorem KnowledgeTab.record_settled (workspaceId : String) (t : KnowledgeTab) (delayed : Bool)
    (st : Step KnowledgeState) (ht : KnowledgeTab.Settled workspaceId t)
    (hs : ∀ c, c ∈ st.sent → Contract.knowledge workspaceId c.line)
    (htm : ∀ tm, tm ∈ st.timers → tm.callback = .fetchKnowledgeSources workspaceId) :
    KnowledgeTab.Settled workspaceId (t.record delayed st) := by
  obtain ⟨hw, hp, hsent⟩ := ht
  refine ⟨hw, ?_, ?_⟩
  · intro tm htmem
    simp only [KnowledgeTab.record, List.mem_append] at htmem
    rcases htmem with h | h
    · exact hp tm h
    · exact htm tm h
  · intro r hr
    rcases (KnowledgeTab.mem_record_sent _ _ _ _).1 hr with hr | ⟨c, hc, he⟩
    · exact hsent r hr
    · subst he
      exact ⟨hw, hs c hc⟩

/-- An event other than a change of route keeps the tab settled. -/
theorem KnowledgeTab.step_settled (workspaceId : String) (t : KnowledgeTab)
    (ev : KnowledgeEvent) (hev : ev.isNavigate = false)
    (ht : KnowledgeTab.Settled workspaceId t) :
    KnowledgeTab.Settled workspaceId (t.step ev) := by
  have hw : t.workspaceId = workspaceId := ht.1
  cases ev with
  | navigate w net => exact Bool.noConfusion hev
  | setSelectedFile file => exact ht
  | setQaQuestion value => exact ht
  | setQaAnswer value => exact ht
  | setIsUploadModalOpen value => exact ht
  | setIsQAModalOpen value => exact ht
  | upload now net =>
    simp only [KnowledgeTab.step, hw]
    exact KnowledgeTab.record_settled workspaceId t false _ ht
      (fun c hc => handleFileUpload_in_contract _ _ _ _ _ _ hc)
      (fun tm h => handleFileUpload_timers _ _ _ _ _ _ h)
  | submitQA net =>
    simp only [KnowledgeTab.step, hw]
    exact KnowledgeTab.record_settled workspaceId t false _ ht
      (fun c hc => handleQASubmit_in_contract _ _ _ _ _ hc)
      (fun tm h => handleQASubmit_timers _ _ _ _ _ h)
  | deleteSource confirm net sourceId =>
    simp only [KnowledgeTab.step, hw]
    exact KnowledgeTab.record_settled workspaceId t false _ ht
      (fun c hc => handleDeleteSource_in_contract _ _ _ _ _ _ _ hc)
      (fun tm h => by rw [handleDeleteSource_timers] at h; exact absurd h (List.not_mem_nil tm))
  | timer net =>
    simp only [KnowledgeTab.step]
    cases hpend : t.pending with
    | nil => exact ht
    | cons first rest =>
      have hfirst : first.callback = .fetchKnowledgeSources workspaceId :=
        ht.2.1 first (by rw [hpend]; exact List.mem_cons_self first rest)
      have hrest : KnowledgeTab.Settled workspaceId { t with pending := rest } :=
        ⟨hw, fun tm h => ht.2.1 tm (by rw [hpend]; exact List.mem_cons_of_mem first h), ht.2.2⟩
      simp only [hfirst, Callback.run]
      exact KnowledgeTab.record_settled workspaceId _ true _ hrest
        (fun c hc => fetchKnowledgeSources_in_contract _ _ _ _ _ hc)
        (fun tm h => by
          rw [fetchKnowledgeSources_timers] at h
          exact absurd h (List.not_mem_nil tm))

/-- A run without a change of route keeps the tab settled. -/
theorem KnowledgeTab.run_settled (workspaceId : String) (events : List KnowledgeEvent) :
    ∀ t : KnowledgeTab, (∀ ev, ev ∈ events → ev.isNavigate = false) →
      KnowledgeTab.Settled workspaceId t → KnowledgeTab.Settled workspaceId (t.run events) := by
  induction events with
  | nil =>
    intro t _ ht
    exact ht
  | cons ev rest ih =>
    intro t hev ht
    exact ih (t.step ev) (fun e he => hev e (List.mem_cons_of_mem ev he))
      (KnowledgeTab.step_settled workspaceId t ev (hev ev (List.mem_cons_self ev rest)) ht)

/-- A tab that has just mounted is settled. -/
theorem KnowledgeTab.mount_settled (workspaceId : String)
    (net : Config → Outcome (List KnowledgeSource)) (b : Browser) :
    KnowledgeTab.Settled workspaceId (KnowledgeTab.mount workspaceId net b) :=
  KnowledgeTab.record_settled workspaceId ⟨workspaceId, b, WorkspaceKnowledge.initial, [], []⟩
    false _
    ⟨rfl, fun tm h => absurd h (List.not_mem_nil tm), fun r h => absurd h (List.not_mem_nil r)⟩
    (fun c hc => fetchKnowledgeSources_in_contract _ _ _ _ _ hc)
    (fun tm h => by
      rw [fetchKnowledgeSources_timers] at h
      exact absurd h (List.not_mem_nil tm))

/-- C7, the claim as stated fails: a file is uploaded in workspace `w1`, the route
changes to `w2` before the timer fires, and the delayed re-fetch is then sent to
`/workspaces/w1/knowledge` while the route on screen is `w2`; its answer, the list
of `w1`, becomes the list shown. -/
theorem delayed_refetch_goes_to_old_workspace :
    (KnowledgeTab.run
      (KnowledgeTab.mount "w1" (fun _ => .ok ⟨200, []⟩) ⟨⟨[]⟩, "/"⟩)
      [.setSelectedFile (some ⟨"policy.pdf", "..."⟩),
       .upload 1700 (fun _ => .ok ⟨202, ()⟩),
       .navigate "w2" (fun _ => .ok ⟨200, []⟩),
       .timer (fun _ => .ok ⟨200, [⟨"s1", "policy.pdf", "FILE", "COMPLETED"⟩]⟩)]).sent.map
      (fun r => (r.route, r.delayed, r.config.method, r.config.url))
      = [("w1", false, .GET, "/workspaces/w1/knowledge"),
         ("w1", false, .POST, "/workspaces/w1/knowledge/upload"),
         ("w2", false, .GET, "/workspaces/w2/knowledge"),
         ("w2", true, .GET, "/workspaces/w1/knowledge")] ∧
    (KnowledgeTab.run
      (KnowledgeTab.mount "w1" (fun _ => .ok ⟨200, []⟩) ⟨⟨[]⟩, "/"⟩)
      [.setSelectedFile (some ⟨"policy.pdf", "..."⟩),
       .upload 1700 (fun _ => .ok ⟨202, ()⟩),
       .navigate "w2" (fun _ => .ok ⟨200, []⟩),
       .timer (fun _ => .ok ⟨200, [⟨"s1", "policy.pdf", "FILE", "COMPLETED"⟩]⟩)]).workspaceId
      = "w2" ∧
    (KnowledgeTab.run
      (KnowledgeTab.mount "w1" (fun _ => .ok ⟨200, []⟩) ⟨⟨[]⟩, "/"⟩)
      [.setSelectedFile (some ⟨"policy.pdf", "..."⟩),
       .upload 1700 (fun _ => .ok ⟨202, ()⟩),
       .navigate "w2" (fun _ => .ok ⟨200, []⟩),
       .timer (fun _ => .ok ⟨200, [⟨"s1", "policy.pdf", "FILE", "COMPLETED"⟩]⟩)]).state.sources
      = [⟨"s1", "policy.pdf", "FILE", "COMPLETED"⟩] :=
  ⟨by decide, by decide, by decide⟩

/-- C7, amended: every request a handler or an effect of the knowledge, tickets and
analytics tabs builds, in a render with route parameter `workspaceId`, has the
method, path, body and query parameters of the HTTP contract for that workspace:
`GET /workspaces/{id}/knowledge`; `POST .../knowledge/upload` with a form holding
the selected file under `file` and the multipart content type;
`POST .../knowledge/qa` with `{question, answer}`; `DELETE .../knowledge/{sourceId}`;
`GET .../tickets` with `status=OPEN` as the only parameter;
`POST .../tickets/{ticketId}/resolve`; `GET .../analytics` with a period that is one
of `24h`, `7d`, `30d`, the first one being `7d`.  In the knowledge tab, over every
list of events, route changes included, each request sent by a handler or an effect
goes to the workspace of the route on screen at that moment; and as long as the
route does not change, every request, the delayed re-fetches included, goes to the
workspace of the route. -/
theorem tab_requests_follow_route (workspaceId : String) (b : Browser) :
    (∀ net s, (WorkspaceKnowledge.fetchKnowledgeSources workspaceId net b s).sent.map Config.line
      = [(.GET, "/workspaces/" ++ workspaceId ++ "/knowledge", .empty, [])]) ∧
    (∀ now net s c, c ∈ (WorkspaceKnowledge.handleFileUpload workspaceId now net b s).sent →
      ∃ file, s.selectedFile = some file ∧
        c.line = (.POST, "/workspaces/" ++ workspaceId ++ "/knowledge/upload",
          .formData [("file", file)], []) ∧
        Entries.get c.headers "Content-Type" = some "multipart/form-data") ∧
    (∀ net s, (WorkspaceKnowledge.handleQASubmit workspaceId net b s).sent.map Config.line
      = [(.POST, "/workspaces/" ++ workspaceId ++ "/knowledge/qa",
          .json [("question", .str s.qaQuestion), ("answer", .str s.qaAnswer)], [])]) ∧
    (∀ confirm net sourceId s c,
      c ∈ (WorkspaceKnowledge.handleDeleteSource workspaceId confirm net sourceId b s).sent →
      c.line = (.DELETE, "/workspaces/" ++ workspaceId ++ "/knowledge/" ++ sourceId, .empty, [])) ∧
    (∀ net s, (WorkspaceTickets.fetchTickets workspaceId net b s).sent.map Config.line
      = [(.GET, "/workspaces/" ++ workspaceId ++ "/tickets", .empty, [("status", "OPEN")])]) ∧
    (∀ net s c, c ∈ (WorkspaceTickets.handleResolveSubmit workspaceId net b s).sent →
      ∃ ticket, s.selectedTicket = some ticket ∧
        c.line = (.POST, "/workspaces/" ++ workspaceId ++ "/tickets/" ++ ticket.id ++ "/resolve",
          .json [("answer", .str s.resolveAnswer), ("add_to_knowledge_base", .bool s.addToKb)],
          [])) ∧
    (∀ mountNet events c, c ∈ (WorkspaceAnalytics.session workspaceId mountNet events b).sent →
      ∃ p, p ∈ ["24h", "7d", "30d"] ∧
        c.line = (.GET, "/workspaces/" ++ workspaceId ++ "/analytics", .empty, [("period", p)])) ∧
    (∀ mountNet events,
      ((WorkspaceAnalytics.session workspaceId mountNet events b).sent.map Config.line).head?
        = some (.GET, "/workspaces/" ++ workspaceId ++ "/analytics", .empty, [("period", "7d")])) ∧
    (∀ mountNet events r,
      r ∈ ((KnowledgeTab.mount workspaceId mountNet b).run events).sent → r.delayed = false →
      Contract.knowledge r.route r.config.line) ∧
    (∀ mountNet events, (∀ ev, ev ∈ events → KnowledgeEvent.isNavigate ev = false) →
      ∀ r, r ∈ ((KnowledgeTab.mount workspaceId mountNet b).run events).sent →
        r.route = workspaceId ∧ Contract.knowledge workspaceId r.config.line) := by
  have h := workspace_requests_follow_contract workspaceId b
  refine ⟨h.1, h.2.1, h.2.2.1, h.2.2.2.1, h.2.2.2.2.2.1, h.2.2.2.2.2.2.1, h.2.2.2.2.2.2.2.1,
    h.2.2.2.2.2.2.2.2, ?_, ?_⟩
  · intro mountNet events
    apply KnowledgeTab.run_direct events (KnowledgeTab.mount workspaceId mountNet b)
    intro r hr _
    have hs := (KnowledgeTab.mount_settled workspaceId mountNet b).2.2 r hr
    rw [hs.1]
    exact hs.2
  · intro mountNet events hev
    exact (KnowledgeTab.run_settled workspaceId events _ hev
      (KnowledgeTab.mount_settled workspaceId mountNet b)).2.2

/-- C7, amended, at workspace `w1`: a file is uploaded and the timer fires with the
route unchanged; the three requests go to `w1`. -/
theorem tab_requests_follow_route_witness :
    ((KnowledgeTab.mount "w1" (fun _ => .ok ⟨200, []⟩) ⟨⟨[]⟩, "/"⟩).run
      [.setSelectedFile (some ⟨"policy.pdf", "..."⟩),
       .upload 1700 (fun _ => .ok ⟨202, ()⟩),
       .timer (fun _ => .ok ⟨200, [⟨"s1", "policy.pdf", "FILE", "COMPLETED"⟩]⟩)]).sent.map
      (fun r => (r.route, r.delayed, r.config.method, r.config.url))
      = [("w1", false, .GET, "/workspaces/w1/knowledge"),
         ("w1", false, .POST, "/workspaces/w1/knowledge/upload"),
         ("w1", true, .GET, "/workspaces/w1/knowledge")] ∧
    ∀ r, r ∈ ((KnowledgeTab.mount "w1" (fun _ => .ok ⟨200, []⟩) ⟨⟨[]⟩, "/"⟩).run
      [.setSelectedFile (some ⟨"policy.pdf", "..."⟩),
       .upload 1700 (fun _ => .ok ⟨202, ()⟩),
       .timer (fun _ => .ok ⟨200, [⟨"s1", "policy.pdf", "FILE", "COMPLETED"⟩]⟩)]).sent →
      r.route = "w1" ∧ Contract.knowledge "w1" r.config.line :=
  ⟨by decide,
   (tab_requests_follow_route "w1" ⟨⟨[]⟩, "/"⟩).2.2.2.2.2.2.2.2.2 (fun _ => .ok ⟨200, []⟩)
    [.setSelectedFile (some ⟨"policy.pdf", "..."⟩),
     .upload 1700 (fun _ => .ok ⟨202, ()⟩),
     .timer (fun _ => .ok ⟨200, [⟨"s1", "policy.pdf", "FILE", "COMPLETED"⟩]⟩)]
    (by
      intro ev hev
      simp only [List.mem_cons, List.mem_singleton, List.not_mem_nil, or_false] at hev
      rcases hev with h | h | h <;> subst h <;> rfl)⟩

end KnowledgeBot
